import Mathlib

/-! IT8951 e-paper driver: protocol engine.

Shallow embedding of `module/IT8951/src/IT8951.h` (class template
`mati::IT8951<BufferSize>`).

* 16-bit words are natural numbers; the casts of the source that narrow a value
  are written with an explicit `%`.
* The two transaction buffers `txBuffer_` and `rxBuffer_` are lists; the template
  parameter `BufferSize` is an explicit argument and the theorems assume that both
  lists have that length (`std::array<uint16_t, BufferSize>`).
* The collaborators (`ISpi`, the busy `IGpio`) are a transition system over an
  arbitrary world state, so that every behaviour of the bus and of the busy line is
  covered, including a busy line that reacts to the transfers.
* A ghost event trace records every call the driver makes on a collaborator.
-/

namespace mati

/-- Result classification `IT8951::Status`. -/
inductive Status
  | ok
  | busy
  | error
  deriving DecidableEq, Repr

/-- Calls of the driver on its collaborators, in the order they are made. -/
inductive Event
  /-- The call `busyPin_.read()` and the level it returned (high = idle). -/
  | pinRead (level : Bool)
  /-- The call `busyPin_.setRisingEdgeCallback`; `armed` is true for the callback
  that releases the semaphore and false for the empty callback. -/
  | setCallback (armed : Bool)
  /-- The call `busySemaphore.acquire()`: the calling thread is suspended. -/
  | acquire
  /-- The call `spi_.transfer`: the outgoing words, the content of the incoming span
  after the call, and the reported success. -/
  | transfer (tx : List Nat) (rx : List Nat) (success : Bool)
  deriving DecidableEq, Repr

/-- The collaborators of the driver as a transition system on a world state `ω`.

* `transfer w tx rx` is `ISpi::transfer` on the outgoing span `tx` and the incoming
  span whose present content is `rx`: it reports success, the words it stores in
  the incoming span and the next world state. The bus reads the outgoing span and
  does not store into it.
* `read` is `IGpio::read` of the busy pin, `setRisingEdgeCallback` is
  `IGpio::setRisingEdgeCallback` (the argument tells whether the callback is the
  releasing one).
* `acquire` is the world's move while the calling thread is suspended in
  `busySemaphore.acquire()` until the registered callback releases the semaphore.
  Only runs in which the collaborator eventually fires the callback are described:
  a wait that never ends has no successor state here. -/
structure Env (ω : Type) where
  transfer : ω → List Nat → List Nat → Bool × List Nat × ω
  read : ω → Bool × ω
  setRisingEdgeCallback : Bool → ω → ω
  acquire : ω → ω

/-- The data members of `IT8951<BufferSize>` together with the world state of the
collaborators and the ghost trace. -/
structure IT8951 (ω : Type) where
  txBuffer_ : List Nat
  rxBuffer_ : List Nat
  busyFlag_ : Bool
  world : ω
  trace : List Event

-- IT8951 SPI preambles
def cWriteCommand_ : Nat := 0x6000
def cWriteData_ : Nat := 0x0000
def cReadData_ : Nat := 0x1000
-- IT8951 commands
def cWakeUp_ : Nat := 0x0001
def cStandby_ : Nat := 0x0002
def cSleep_ : Nat := 0x0003
def cReadRegister_ : Nat := 0x0010
def cWriteRegister_ : Nat := 0x0011
def cLoadImageArea_ : Nat := 0x0021
def cEndLoadImage_ : Nat := 0x0022
def cDisplayArea_ : Nat := 0x0034
def cSetVcom_ : Nat := 0x0039
def cGetDeviceInfo_ : Nat := 0x0302
-- refresh modes
def cClear_ : Nat := 0x0000
def cGrayscale_ : Nat := 0x0002

/-- Storing the words `src` at the start of `buf` (`std::copy` into a span or an
array that is long enough): the length of `buf` is kept. -/
def store (buf src : List Nat) : List Nat :=
  src.take buf.length ++ buf.drop src.length

/-- The call `spi_.transfer(std::span{txBuffer_}.subspan(0, n),
std::span{rxBuffer_}.subspan(0, n))`. The words the bus reports are stored in the
first `n` slots of `rxBuffer_`. -/
def spiTransfer {ω : Type} (env : Env ω) (n : Nat) (s : IT8951 ω) : Bool × IT8951 ω :=
  let tx := s.txBuffer_.take n
  let r := env.transfer s.world tx (s.rxBuffer_.take n)
  let rx := store (s.rxBuffer_.take n) r.2.1
  (r.1, { s with rxBuffer_ := rx ++ s.rxBuffer_.drop n
                 world := r.2.2
                 trace := s.trace ++ [Event.transfer tx rx r.1] })

/-- Source function `IT8951::waitUntilIdle`. -/
def waitUntilIdle {ω : Type} (env : Env ω) (s : IT8951 ω) : IT8951 ω :=
  let r1 := env.read s.world
  if r1.1 then
    { s with world := r1.2, trace := s.trace ++ [Event.pinRead true] }
  else
    let w2 := env.setRisingEdgeCallback true r1.2
    let r2 := env.read w2
    -- pin low = busy, pin high = idle
    if r2.1 then
      { s with world := env.setRisingEdgeCallback false r2.2
               trace := s.trace ++ [Event.pinRead false, Event.setCallback true,
                 Event.pinRead true, Event.setCallback false] }
    else
      { s with world := env.setRisingEdgeCallback false (env.acquire r2.2)
               trace := s.trace ++ [Event.pinRead false, Event.setCallback true,
                 Event.pinRead false, Event.acquire, Event.setCallback false] }

/-- Source function `IT8951::writeCommand(const uint16_t command)`. -/
def writeCommand {ω : Type} (env : Env ω) (command : Nat) (s : IT8951 ω) :
    Status × IT8951 ω :=
  if s.busyFlag_ then (Status.busy, s)
  else
    let s1 := { s with busyFlag_ := true
                       txBuffer_ := (s.txBuffer_.set 0 cWriteCommand_).set 1 command }
    let s2 := waitUntilIdle env s1
    let r := spiTransfer env 2 s2
    (if r.1 then Status.ok else Status.error, { r.2 with busyFlag_ := false })

/-- One round of the parameter loop of `writeCommand(command, parameters)`. -/
def parameterStep {ω : Type} (env : Env ω) (acc : Status × IT8951 ω) (p : Nat) :
    Status × IT8951 ω :=
  let s1 := { acc.2 with txBuffer_ := acc.2.txBuffer_.set 1 p }
  let s2 := waitUntilIdle env s1
  let r := spiTransfer env 2 s2
  (if r.1 then acc.1 else Status.error, r.2)

/-- Source function `IT8951::writeCommand(const uint16_t command, const std::span<uint16_t> parameters)`. -/
def writeCommandParameters {ω : Type} (env : Env ω) (command : Nat)
    (parameters : List Nat) (s : IT8951 ω) : Status × IT8951 ω :=
  if s.busyFlag_ then (Status.busy, s)
  else
    let s1 := { s with busyFlag_ := true
                       txBuffer_ := (s.txBuffer_.set 0 cWriteCommand_).set 1 command }
    let s2 := waitUntilIdle env s1
    let r := spiTransfer env 2 s2
    let result := if r.1 then Status.ok else Status.error
    let s3 := { r.2 with txBuffer_ := r.2.txBuffer_.set 0 cWriteData_ }
    let out := parameters.foldl (parameterStep env) (result, s3)
    (out.1, { out.2 with busyFlag_ := false })

/-- Source function `IT8951::writeData(const std::span<uint16_t> buffer)`; `BufferSize` is the
template parameter. -/
def writeData {ω : Type} (env : Env ω) (BufferSize : Nat) (buffer : List Nat)
    (s : IT8951 ω) : Status × IT8951 ω :=
  if s.busyFlag_ then (Status.busy, s)
  else
    let s1 := { s with busyFlag_ := true }
    let transferSize := buffer.length + 1 -- 1 => preamble
    if transferSize > BufferSize then (Status.error, s1)
    else
      let tx0 := s1.txBuffer_.set 0 cWriteData_
      let s2 := { s1 with txBuffer_ := tx0.take 1 ++ store (tx0.drop 1) buffer }
      let s3 := waitUntilIdle env s2
      let r := spiTransfer env transferSize s3
      (if r.1 then Status.ok else Status.error, { r.2 with busyFlag_ := false })

/-- Source function `IT8951::readData(const std::span<uint16_t> buffer)`; the second component is the
content of the caller's buffer when the call returns. -/
def readData {ω : Type} (env : Env ω) (BufferSize : Nat) (buffer : List Nat)
    (s : IT8951 ω) : Status × List Nat × IT8951 ω :=
  if s.busyFlag_ then (Status.busy, buffer, s)
  else
    let s1 := { s with busyFlag_ := true }
    let transferSize := buffer.length + 2 -- 2 => preamble + dummy
    if transferSize > BufferSize then (Status.error, buffer, s1)
    else
      let s2 := { s1 with txBuffer_ := (s1.txBuffer_.set 0 cReadData_).set 1 0x0000 }
      let s3 := waitUntilIdle env s2
      let r := spiTransfer env transferSize s3
      let buffer1 := store buffer ((r.2.rxBuffer_.take transferSize).drop 2)
      (if r.1 then Status.ok else Status.error, buffer1, { r.2 with busyFlag_ := false })

/-- Source function `IT8951::writeRegister`. -/
def writeRegister {ω : Type} (env : Env ω) (address value : Nat) (s : IT8951 ω) :
    Status × IT8951 ω :=
  writeCommandParameters env cWriteRegister_ [address, value] s

/-- Source function `IT8951::readRegister`. -/
def readRegister {ω : Type} (env : Env ω) (BufferSize : Nat) (address : Nat)
    (s : IT8951 ω) : Status × Nat × IT8951 ω :=
  let r1 := writeCommandParameters env cReadRegister_ [address] s
  if r1.1 ≠ Status.ok then (r1.1, 0, r1.2)
  else
    let r2 := readData env BufferSize [0] r1.2
    if r2.1 ≠ Status.ok then (r2.1, 0, r2.2.2)
    else (Status.ok, r2.2.1.headD 0, r2.2.2)

/-- Source function `IT8951::refresh`. -/
def refresh {ω : Type} (env : Env ω) (xCoordinate yCoordinate width height mode : Nat)
    (s : IT8951 ω) : Status × IT8951 ω :=
  writeCommandParameters env cDisplayArea_ [xCoordinate, yCoordinate, width, height, mode] s

/-- Source function `IT8951::wakeUp`. -/
def wakeUp {ω : Type} (env : Env ω) (s : IT8951 ω) : Status × IT8951 ω :=
  writeCommand env cWakeUp_ s

/-- Source function `IT8951::standby`. -/
def standby {ω : Type} (env : Env ω) (s : IT8951 ω) : Status × IT8951 ω :=
  writeCommand env cStandby_ s

/-- Source function `IT8951::sleep`. -/
def sleep {ω : Type} (env : Env ω) (s : IT8951 ω) : Status × IT8951 ω :=
  writeCommand env cSleep_ s

/-- Source function `IT8951::enableParameterPack`. -/
def enableParameterPack {ω : Type} (env : Env ω) (s : IT8951 ω) : Status × IT8951 ω :=
  writeRegister env 0x0004 0x0001 s

/-- Source function `IT8951::isDisplayReady`. -/
def isDisplayReady {ω : Type} (env : Env ω) (BufferSize : Nat) (s : IT8951 ω) :
    Status × Bool × IT8951 ω :=
  -- read from the LUT register
  let r := readRegister env BufferSize 0x1224 s
  (r.1, decide (0x0000 = r.2.1), r.2.2)

/-- Source function `IT8951::writeImage`; `imageBufferAddress` is a `uint32_t`. -/
def writeImage {ω : Type} (env : Env ω) (BufferSize : Nat) (imageBufferAddress : Nat)
    (image : List Nat) (xCoordinate yCoordinate width height : Nat) (s : IT8951 ω) :
    Status × IT8951 ω :=
  let registerBase : Nat := 0x208
  let r1 := writeRegister env ((registerBase + 2) % 65536)
    ((imageBufferAddress / 2 ^ 16) % 65536) s
  if r1.1 ≠ Status.ok then r1
  else
    let r2 := writeRegister env registerBase (imageBufferAddress % 65536) r1.2
    if r2.1 ≠ Status.ok then r2
    else
      let r3 := writeCommandParameters env cLoadImageArea_
        [0x0020, xCoordinate, yCoordinate, width, height] r2.2
      if r3.1 ≠ Status.ok then r3
      else
        let r4 := writeData env BufferSize image r3.2
        if r4.1 ≠ Status.ok then r4
        else writeCommand env cEndLoadImage_ r4.2

/-- Source function `IT8951::display`. -/
def display {ω : Type} (env : Env ω) (xCoordinate yCoordinate width height : Nat)
    (s : IT8951 ω) : Status × IT8951 ω :=
  refresh env xCoordinate yCoordinate width height cGrayscale_ s

/-- Source function `IT8951::clear`. -/
def clear {ω : Type} (env : Env ω) (xCoordinate yCoordinate width height : Nat)
    (s : IT8951 ω) : Status × IT8951 ω :=
  refresh env xCoordinate yCoordinate width height cClear_ s

/-! ## Single-precision floating point

`setVcom` and `getVcom` compute in `float`. The values of IEEE-754 binary32 are
modelled exactly: every finite value is an integer multiple of `2^-149` (the
smallest subnormal), and an operation rounds its exact result to the nearest
representable value, ties to even. -/

/-- A `float`: not-a-number, an infinity, or a finite value given by its sign and
its magnitude counted in units of `2^-149`. -/
inductive F32
  | nan
  | inf (neg : Bool)
  | fin (neg : Bool) (mag : Nat)
  deriving DecidableEq, Repr

namespace F32

/-- The `float` with the 32-bit pattern `b` (sign, 8 exponent bits, 23 fraction bits). -/
def ofBits (b : Nat) : F32 :=
  let neg := decide (b / 2 ^ 31 % 2 = 1)
  let e := b / 2 ^ 23 % 256
  let m := b % 2 ^ 23
  if e = 255 then (if m = 0 then inf neg else nan)
  else if e = 0 then fin neg m
  else fin neg ((2 ^ 23 + m) * 2 ^ (e - 1))

/-- The position of the leading bit of `n`, searched in at most `fuel` halvings. -/
def leadingBitAux : Nat → Nat → Nat
  | 0, _ => 0
  | fuel + 1, n => if n < 2 then 0 else leadingBitAux fuel (n / 2) + 1

/-- The position of the leading bit of `n`: the largest `e` with `2^e ≤ n` (0 for
`n = 0`). -/
def leadingBit (n : Nat) : Nat := leadingBitAux n n

/-- The representable magnitude (in units of `2^-149`) nearest to `num / den` units,
ties to even: 24 significant bits, and no bit below the unit. -/
def roundMag (num den : Nat) : Nat :=
  let q := num / den
  let k := if q < 2 ^ 24 then 0 else leadingBit q - 23
  let d := den * 2 ^ k
  let m := num / d
  let r := num % d
  let m1 := if 2 * r < d then m else if d < 2 * r then m + 1
    else if m % 2 = 0 then m else m + 1
  m1 * 2 ^ k

/-- Rounding of the exact value `(-1)^neg * num / den` units to a `float`; a result
of magnitude `2^128` or more is an infinity. -/
def ofRatio (neg : Bool) (num den : Nat) : F32 :=
  let mag := roundMag num den
  if 2 ^ 128 * 2 ^ 149 ≤ mag then inf neg else fin neg mag

/-- The exact value of a finite `float` as a signed number of units. -/
def signed (neg : Bool) (mag : Nat) : Int :=
  if neg then -(mag : Int) else (mag : Int)

/-- The comparison `a < b` of two `float`s (false when one is not a number). -/
def lt : F32 → F32 → Bool
  | fin n1 m1, fin n2 m2 => decide (signed n1 m1 < signed n2 m2)
  | inf true, fin _ _ => true
  | inf true, inf false => true
  | fin _ _, inf false => true
  | _, _ => false

/-- The comparison `a <= b` of two `float`s (false when one is not a number). -/
def le : F32 → F32 → Bool
  | fin n1 m1, fin n2 m2 => decide (signed n1 m1 ≤ signed n2 m2)
  | inf true, fin _ _ => true
  | inf true, inf _ => true
  | fin _ _, inf false => true
  | inf false, inf false => true
  | _, _ => false

/-- The product `a * b` in `float`. -/
def mul : F32 → F32 → F32
  | fin n1 m1, fin n2 m2 => ofRatio (xor n1 n2) (m1 * m2) (2 ^ 149)
  | inf n1, inf n2 => inf (xor n1 n2)
  | inf n1, fin n2 m2 => if m2 = 0 then nan else inf (xor n1 n2)
  | fin n1 m1, inf n2 => if m1 = 0 then nan else inf (xor n1 n2)
  | _, _ => nan

/-- The quotient `a / b` in `float`. -/
def div : F32 → F32 → F32
  | fin n1 m1, fin n2 m2 =>
    if m2 = 0 then (if m1 = 0 then nan else inf (xor n1 n2))
    else ofRatio (xor n1 n2) (m1 * 2 ^ 149) m2
  | fin n1 _, inf n2 => fin (xor n1 n2) 0
  | inf n1, fin n2 _ => inf (xor n1 n2)
  | _, _ => nan

/-- The conversion `static_cast<float>(n)` of an unsigned integer. -/
def ofNat (n : Nat) : F32 :=
  ofRatio false (n * 2 ^ 149) 1

/-- The conversion `static_cast<uint16_t>(x)`: the fractional part is discarded; the
conversion is undefined (`none`) when the integer part does not fit the type. -/
def toUInt16 : F32 → Option Nat
  | fin neg mag =>
    let t := mag / 2 ^ 149
    if t = 0 then some 0
    else if neg then none
    else if t < 65536 then some t else none
  | _ => none

end F32

/-- The literal `-1000.0f`. -/
def negThousand : F32 := F32.ofBits 0xC47A0000

/-- Source function `IT8951::setVcom`. -/
def setVcom {ω : Type} (env : Env ω) (vcom : F32) (s : IT8951 ω) : Status × IT8951 ω :=
  let maxValue : Nat := 65535
  let inRange := F32.le (F32.div (F32.ofNat maxValue) negThousand) vcom
    && F32.lt vcom (F32.ofNat 0)
  if !inRange then (Status.error, s)
  else
    -- parameter to 1 = set VCOM, then the VCOM value
    let parameters := [0x0001, (F32.toUInt16 (F32.mul vcom negThousand)).getD 0]
    writeCommandParameters env cSetVcom_ parameters s

/-- Source function `IT8951::getVcom`. -/
def getVcom {ω : Type} (env : Env ω) (BufferSize : Nat) (s : IT8951 ω) :
    Status × F32 × IT8951 ω :=
  -- parameter to 0 = get VCOM
  let r1 := writeCommandParameters env cSetVcom_ [0x0000] s
  if r1.1 ≠ Status.ok then (r1.1, F32.ofNat 0, r1.2)
  else
    let r2 := readData env BufferSize [0] r1.2
    if r2.1 ≠ Status.ok then (r2.1, F32.ofNat 0, r2.2.2)
    else (Status.ok, F32.div (F32.ofNat (r2.2.1.headD 0)) negThousand, r2.2.2)

/-! ## Device information -/

/-- Source structure `IT8951::DeviceInfo`; the two texts are the bytes of the `std::string`s. -/
structure DeviceInfo where
  width : Nat
  height : Nat
  imageBufferAddress : Nat
  firmwareVersion : List Nat
  lutVersion : List Nat
  deriving DecidableEq, Repr

/-- The default constructor `DeviceInfo()`. -/
def DeviceInfo.empty : DeviceInfo := ⟨0, 0, 0, [], []⟩

/-- The two bytes of a 16-bit word in memory order (little-endian host: the low
byte has the lower address). -/
def wordBytes (w : Nat) : List Nat := [w % 256, w / 256 % 256]

/-- The bytes of a block of 16-bit words in memory order. -/
def bytesOf (ws : List Nat) : List Nat := (ws.map wordBytes).flatten

/-- The constructor `std::string{const char*}`: the bytes from the pointer on, up
to but excluding the first zero byte. -/
def cString (memory : List Nat) : List Nat := memory.takeWhile (fun b => b != 0)

/-- The lines of `IT8951::getDeviceInfo` that fill the `DeviceInfo` from the local
array `buffer` once it has been read. The argument `beyond` is the content of the
memory that follows the array: `std::string{char*}` has no length bound, so a text
without terminator inside the array is read on into those bytes. -/
def parseDeviceInfo (buffer beyond : List Nat) : DeviceInfo :=
  { width := buffer.getD 0 0
    height := buffer.getD 1 0
    imageBufferAddress := (((buffer.getD 3 0) <<< 16) % 2 ^ 32) ||| (buffer.getD 2 0)
    firmwareVersion := cString (bytesOf (buffer.drop 4) ++ beyond)
    lutVersion := cString (bytesOf (buffer.drop 12) ++ beyond) }

/-- Source function `IT8951::getDeviceInfo`; `beyond` is the memory after the local array `buffer`
(see `parseDeviceInfo`). -/
def getDeviceInfo {ω : Type} (env : Env ω) (BufferSize : Nat) (beyond : List Nat)
    (s : IT8951 ω) : Status × DeviceInfo × IT8951 ω :=
  let r1 := writeCommand env cGetDeviceInfo_ s
  if r1.1 ≠ Status.ok then (r1.1, DeviceInfo.empty, r1.2)
  else
    let r2 := readData env BufferSize (List.replicate 20 0) r1.2
    if r2.1 ≠ Status.ok then (r2.1, DeviceInfo.empty, r2.2.2)
    else (Status.ok, parseDeviceInfo r2.2.1 beyond, r2.2.2)

/-! ## Test doubles and observations -/

/-- The state the constructor `IT8951(spi, resetPin, busyPin)` leaves: both buffers
zeroed, the flag clear. -/
def IT8951.init {ω : Type} (BufferSize : Nat) (w : ω) : IT8951 ω :=
  { txBuffer_ := List.replicate BufferSize 0
    rxBuffer_ := List.replicate BufferSize 0
    busyFlag_ := false
    world := w
    trace := [] }

/-- A fake bus and busy line. The world state counts the transfers made so far; the
transfer number `i` reports `success i` and stores the words `response i`; the
busy pin always reads `idle`. -/
def fakeEnv (success : Nat → Bool) (response : Nat → List Nat) (idle : Bool) : Env Nat :=
  { transfer := fun w _ _ => (success w, response w, w + 1)
    read := fun w => (idle, w)
    setRisingEdgeCallback := fun _ w => w
    acquire := fun w => w }

/-- The outgoing words of the bus transfers of a trace, in order. -/
def transfers : List Event → List (List Nat)
  | [] => []
  | Event.transfer tx _ _ :: es => tx :: transfers es
  | _ :: es => transfers es

/-- The buffers of the driver have the size of the template parameter, which the
constructor's `static_assert` bounds below by 2. -/
def WellSized {ω : Type} (BufferSize : Nat) (s : IT8951 ω) : Prop :=
  2 ≤ BufferSize ∧ s.txBuffer_.length = BufferSize ∧ s.rxBuffer_.length = BufferSize

/-- Every transfer of the bus reports success. -/
def BusSucceeds {ω : Type} (env : Env ω) : Prop :=
  ∀ w tx rx, (env.transfer w tx rx).1 = true

/-- The bytes of a text of 7-bit characters. -/
def ascii (t : String) : List Nat := t.toList.map Char.toNat

/-- The 20-word response block of the specification's round trip: `100`, `200`,
`0x2345`, `0x0001`, then "FW1.0" and "LUT1", each packed low byte first into 8
words and padded with zeros. -/
def infoBlock : List Nat :=
  [100, 200, 0x2345, 0x0001,
   0x5746, 0x2E31, 0x0030, 0, 0, 0, 0, 0,
   0x554C, 0x3154, 0, 0, 0, 0, 0, 0]

/-- A response block whose firmware field holds 16 characters `A` and no
terminator, followed by the field "LUT1". -/
def unterminatedBlock : List Nat :=
  [100, 200, 0x2345, 0x0001,
   0x4141, 0x4141, 0x4141, 0x4141, 0x4141, 0x4141, 0x4141, 0x4141,
   0x554C, 0x3154, 0, 0, 0, 0, 0, 0]

/-- A response block without any zero byte in its two text fields. -/
def fullBlock : List Nat :=
  [100, 200, 0x2345, 0x0001,
   0x4141, 0x4141, 0x4141, 0x4141, 0x4141, 0x4141, 0x4141, 0x4141,
   0x4242, 0x4242, 0x4242, 0x4242, 0x4242, 0x4242, 0x4242, 0x4242]

/-- A fake bus that succeeds and answers every transfer with two words (the slots
of preamble and dummy) followed by `block`; the busy pin reads idle. -/
def blockEnv (block : List Nat) : Env Nat :=
  fakeEnv (fun _ => true) (fun _ => [0, 0] ++ block) true

/-! ## Framing of the event trace -/

/-- The three runs of `waitUntilIdle`: the pin reads idle at the first sample; the
pin reads busy, the callback is registered and the second sample reads idle; both
samples read busy and the thread is suspended on the semaphore. -/
inductive WaitRun
  | idle
  | idleAfterRegistering
  | suspended
  deriving DecidableEq, Repr

/-- The events of one invocation of `waitUntilIdle`. -/
def WaitRun.events : WaitRun → List Event
  | WaitRun.idle => [Event.pinRead true]
  | WaitRun.idleAfterRegistering =>
    [Event.pinRead false, Event.setCallback true, Event.pinRead true,
      Event.setCallback false]
  | WaitRun.suspended =>
    [Event.pinRead false, Event.setCallback true, Event.pinRead false, Event.acquire,
      Event.setCallback false]

/-- One bus transaction of the framer: an invocation of `waitUntilIdle` and the one
bus transfer that follows it (outgoing words, incoming words, reported success). -/
structure Transaction where
  run : WaitRun
  tx : List Nat
  rx : List Nat
  success : Bool
  deriving DecidableEq, Repr

/-- The events of one transaction: those of the wait, then the transfer. -/
def Transaction.events (t : Transaction) : List Event :=
  t.run.events ++ [Event.transfer t.tx t.rx t.success]

/-- The events of a sequence of transactions. -/
def framedBy (ts : List Transaction) : List Event :=
  (ts.map Transaction.events).flatten

/-- The trace of `s1` is the trace of `s` followed by whole transactions only. -/
def Framed {ω : Type} (s s1 : IT8951 ω) : Prop :=
  ∃ ts : List Transaction, s1.trace = s.trace ++ framedBy ts

/-! ## Reference notions of the specification -/

/-- The accepted range of `setVcom` in the words of the specification,
`-65.535 ≤ v < 0`, on `float`s: the bound is the `float` nearest to -65.535, which
is `-8589804 * 2^-17`, that is `8589804 * 2^132` units of `2^-149`. -/
def vcomAccepted : F32 → Bool
  | F32.fin true mag => decide (0 < mag ∧ mag ≤ 8589804 * 2 ^ 132)
  | _ => false

/-- The integer nearest to a `float` that is not negative (halves upwards, as
`std::round`); 0 for the other values. -/
def F32.roundToNat : F32 → Nat
  | F32.fin false mag => (2 * mag + 2 ^ 149) / (2 * 2 ^ 149)
  | _ => 0

/-- The register value of `setVcom` in the words of the specification:
`round(v × -1000)` reduced to 16 bits. -/
def vcomRegisterRounded (v : F32) : Nat :=
  F32.roundToNat (F32.mul v negThousand) % 65536

/-! ## Basic facts about the primitives -/

theorem transfers_append (a b : List Event) :
    transfers (a ++ b) = transfers a ++ transfers b := by
  induction a with
  | nil => rfl
  | cons e es ih => cases e <;> simp [transfers, ih]

theorem store_length (buf src : List Nat) : (store buf src).length = buf.length := by
  simp only [store, List.length_append, List.length_take, List.length_drop]
  omega

section primitives

variable {ω : Type} (env : Env ω)

@[simp] theorem waitUntilIdle_txBuffer (s : IT8951 ω) :
    (waitUntilIdle env s).txBuffer_ = s.txBuffer_ := by
  simp only [waitUntilIdle]; split_ifs <;> rfl

@[simp] theorem waitUntilIdle_rxBuffer (s : IT8951 ω) :
    (waitUntilIdle env s).rxBuffer_ = s.rxBuffer_ := by
  simp only [waitUntilIdle]; split_ifs <;> rfl

@[simp] theorem waitUntilIdle_busyFlag (s : IT8951 ω) :
    (waitUntilIdle env s).busyFlag_ = s.busyFlag_ := by
  simp only [waitUntilIdle]; split_ifs <;> rfl

@[simp] theorem waitUntilIdle_transfers (s : IT8951 ω) :
    transfers (waitUntilIdle env s).trace = transfers s.trace := by
  simp only [waitUntilIdle]; split_ifs <;> simp [transfers_append, transfers]

@[simp] theorem spiTransfer_txBuffer (n : Nat) (s : IT8951 ω) :
    (spiTransfer env n s).2.txBuffer_ = s.txBuffer_ := rfl

@[simp] theorem spiTransfer_busyFlag (n : Nat) (s : IT8951 ω) :
    (spiTransfer env n s).2.busyFlag_ = s.busyFlag_ := rfl

@[simp] theorem spiTransfer_rxBuffer_length (n : Nat) (s : IT8951 ω) :
    (spiTransfer env n s).2.rxBuffer_.length = s.rxBuffer_.length := by
  simp only [spiTransfer, List.length_append, store_length, List.length_take,
    List.length_drop]
  omega

@[simp] theorem spiTransfer_transfers (n : Nat) (s : IT8951 ω) :
    transfers (spiTransfer env n s).2.trace = transfers s.trace ++ [s.txBuffer_.take n] := by
  simp [spiTransfer, transfers_append, transfers]

theorem spiTransfer_success (h : BusSucceeds env) (n : Nat) (s : IT8951 ω) :
    (spiTransfer env n s).1 = true := h _ _ _

theorem take_two_set (tx : List Nat) (a b : Nat) (h : 2 ≤ tx.length) :
    ((tx.set 0 a).set 1 b).take 2 = [a, b] := by
  match tx, h with
  | _ :: _ :: _, _ => simp

theorem writeCommand_busy (command : Nat) (s : IT8951 ω) (h : s.busyFlag_ = true) :
    writeCommand env command s = (Status.busy, s) := by
  simp [writeCommand, h]

theorem writeCommandParameters_busy (command : Nat) (ps : List Nat) (s : IT8951 ω)
    (h : s.busyFlag_ = true) :
    writeCommandParameters env command ps s = (Status.busy, s) := by
  simp [writeCommandParameters, h]

theorem writeData_busy (C : Nat) (buffer : List Nat) (s : IT8951 ω)
    (h : s.busyFlag_ = true) :
    writeData env C buffer s = (Status.busy, s) := by
  simp [writeData, h]

theorem readData_busy (C : Nat) (buffer : List Nat) (s : IT8951 ω)
    (h : s.busyFlag_ = true) :
    readData env C buffer s = (Status.busy, buffer, s) := by
  simp [readData, h]

/-- Effect of `writeCommand(command)` entered with the flag clear. -/
theorem writeCommand_spec (C command : Nat) (s : IT8951 ω)
    (hf : s.busyFlag_ = false) (hw : WellSized C s) :
    (writeCommand env command s).2.busyFlag_ = false ∧
    WellSized C (writeCommand env command s).2 ∧
    transfers (writeCommand env command s).2.trace
      = transfers s.trace ++ [[cWriteCommand_, command]] ∧
    (BusSucceeds env → (writeCommand env command s).1 = Status.ok) := by
  obtain ⟨h2, htx, hrx⟩ := hw
  have ht : ((s.txBuffer_.set 0 cWriteCommand_).set 1 command).take 2
      = [cWriteCommand_, command] := take_two_set _ _ _ (by omega)
  refine ⟨?_, ⟨h2, ?_, ?_⟩, ?_, ?_⟩
  · simp [writeCommand, hf]
  · simp [writeCommand, hf, htx]
  · simp [writeCommand, hf, hrx]
  · simp [writeCommand, hf, ht]
  · intro hb
    simp [writeCommand, hf, spiTransfer_success env hb]

/-- Effect of the parameter loop of `writeCommand(command, parameters)`. -/
theorem parameterFold_spec (ps : List Nat) :
    ∀ (acc : Status × IT8951 ω) (y : Nat) (rest : List Nat),
      acc.2.txBuffer_ = cWriteData_ :: y :: rest →
      (ps.foldl (parameterStep env) acc).2.busyFlag_ = acc.2.busyFlag_ ∧
      (ps.foldl (parameterStep env) acc).2.rxBuffer_.length = acc.2.rxBuffer_.length ∧
      (ps.foldl (parameterStep env) acc).2.txBuffer_.length = acc.2.txBuffer_.length ∧
      transfers (ps.foldl (parameterStep env) acc).2.trace
        = transfers acc.2.trace ++ ps.map (fun p => [cWriteData_, p]) ∧
      (BusSucceeds env → (ps.foldl (parameterStep env) acc).1 = acc.1) := by
  induction ps with
  | nil => intro acc y rest _; simp
  | cons p ps ih =>
    intro acc y rest htx
    have hstep : (parameterStep env acc p).2.txBuffer_ = cWriteData_ :: p :: rest := by
      simp [parameterStep, htx]
    obtain ⟨h1, h2, h3, h4, h5⟩ := ih (parameterStep env acc p) p rest hstep
    simp only [List.foldl_cons]
    refine ⟨?_, ?_, ?_, ?_, ?_⟩
    · rw [h1]; simp [parameterStep]
    · rw [h2]; simp [parameterStep]
    · rw [h3, hstep, htx]; simp
    · rw [h4]; simp [parameterStep, htx]
    · intro hb
      rw [h5 hb]
      simp [parameterStep, spiTransfer_success env hb]

/-- Effect of `writeCommand(command, parameters)` entered with the flag clear. -/
theorem writeCommandParameters_spec (C command : Nat) (ps : List Nat) (s : IT8951 ω)
    (hf : s.busyFlag_ = false) (hw : WellSized C s) :
    (writeCommandParameters env command ps s).2.busyFlag_ = false ∧
    WellSized C (writeCommandParameters env command ps s).2 ∧
    transfers (writeCommandParameters env command ps s).2.trace
      = transfers s.trace ++ [cWriteCommand_, command] :: ps.map (fun p => [cWriteData_, p]) ∧
    (BusSucceeds env → (writeCommandParameters env command ps s).1 = Status.ok) := by
  obtain ⟨h2, htx, hrx⟩ := hw
  obtain ⟨x, y, rest, hs⟩ : ∃ x y rest, s.txBuffer_ = x :: y :: rest := by
    match hm : s.txBuffer_ with
    | [] => rw [hm] at htx; simp at htx; omega
    | [_] => rw [hm] at htx; simp at htx; omega
    | x :: y :: rest => exact ⟨x, y, rest, rfl⟩
  have hlen : rest.length + 2 = C := by rw [← htx, hs]; simp
  obtain ⟨h1, h3, h4, h5, h6⟩ := parameterFold_spec env ps
    (if (spiTransfer env 2 (waitUntilIdle env
        { s with busyFlag_ := true
                 txBuffer_ := (s.txBuffer_.set 0 cWriteCommand_).set 1 command })).1
      then Status.ok else Status.error,
     { (spiTransfer env 2 (waitUntilIdle env
        { s with busyFlag_ := true
                 txBuffer_ := (s.txBuffer_.set 0 cWriteCommand_).set 1 command })).2 with
       txBuffer_ := (spiTransfer env 2 (waitUntilIdle env
        { s with busyFlag_ := true
                 txBuffer_ := (s.txBuffer_.set 0 cWriteCommand_).set 1 command })).2.txBuffer_.set
          0 cWriteData_ })
    command rest (by simp [hs])
  refine ⟨?_, ⟨h2, ?_, ?_⟩, ?_, ?_⟩
  · simp [writeCommandParameters, hf]
  · simp only [writeCommandParameters, hf]
    simp only [Bool.false_eq_true, if_false]
    rw [h4]; simp [hs, hlen]
  · simp only [writeCommandParameters, hf]
    simp only [Bool.false_eq_true, if_false]
    rw [h3]; simp [hrx]
  · simp only [writeCommandParameters, hf]
    simp only [Bool.false_eq_true, if_false]
    rw [h5]; simp [hs]
  · intro hb
    simp only [writeCommandParameters, hf]
    simp only [Bool.false_eq_true, if_false]
    rw [h6 hb]; simp [spiTransfer_success env hb]

/-- Effect of `writeData` entered with the flag clear and a payload that fits. -/
theorem writeData_spec (C : Nat) (buffer : List Nat) (s : IT8951 ω)
    (hf : s.busyFlag_ = false) (hw : WellSized C s) (hfit : buffer.length + 1 ≤ C) :
    (writeData env C buffer s).2.busyFlag_ = false ∧
    WellSized C (writeData env C buffer s).2 ∧
    transfers (writeData env C buffer s).2.trace
      = transfers s.trace ++ [cWriteData_ :: buffer] ∧
    (BusSucceeds env → (writeData env C buffer s).1 = Status.ok) := by
  obtain ⟨h2, htx, hrx⟩ := hw
  obtain ⟨x, rest, hs⟩ : ∃ x rest, s.txBuffer_ = x :: rest := by
    match hm : s.txBuffer_ with
    | [] => rw [hm] at htx; simp at htx; omega
    | x :: rest => exact ⟨x, rest, rfl⟩
  have hlen : rest.length + 1 = C := by rw [← htx, hs]; simp
  have hnot : ¬ (C < buffer.length + 1) := by omega
  have hle : buffer.length ≤ rest.length := by omega
  refine ⟨?_, ⟨h2, ?_, ?_⟩, ?_, ?_⟩
  · simp [writeData, hf, hnot]
  · simp [writeData, hf, hnot, hs, store_length, hlen]
  · simp [writeData, hf, hnot, hrx]
  · simp [writeData, hf, hnot, hs, store, List.take_append_eq_append_take,
      List.take_of_length_le hle]
  · intro hb
    simp [writeData, hf, hnot, spiTransfer_success env hb]

/-- Effect of `readData` entered with the flag clear and a length that fits. -/
theorem readData_spec (C : Nat) (buffer : List Nat) (s : IT8951 ω)
    (hf : s.busyFlag_ = false) (hw : WellSized C s) (hfit : buffer.length + 2 ≤ C) :
    (readData env C buffer s).2.2.busyFlag_ = false ∧
    WellSized C (readData env C buffer s).2.2 ∧
    transfers (readData env C buffer s).2.2.trace
      = transfers s.trace
        ++ [cReadData_ :: 0 :: (s.txBuffer_.drop 2).take buffer.length] ∧
    (readData env C buffer s).2.1
      = ((readData env C buffer s).2.2.rxBuffer_.drop 2).take buffer.length ∧
    (BusSucceeds env → (readData env C buffer s).1 = Status.ok) := by
  obtain ⟨h2, htx, hrx⟩ := hw
  obtain ⟨x, y, rest, hs⟩ : ∃ x y rest, s.txBuffer_ = x :: y :: rest := by
    match hm : s.txBuffer_ with
    | [] => rw [hm] at htx; simp at htx; omega
    | [_] => rw [hm] at htx; simp at htx; omega
    | x :: y :: rest => exact ⟨x, y, rest, rfl⟩
  have hlen : rest.length + 2 = C := by rw [← htx, hs]; simp
  have hnot : ¬ (C < buffer.length + 2) := by omega
  refine ⟨?_, ⟨h2, ?_, ?_⟩, ?_, ?_, ?_⟩
  · simp [readData, hf, hnot]
  · simp [readData, hf, hnot, hs, hlen]
  · simp [readData, hf, hnot, hrx]
  · simp [readData, hf, hnot, hs]
  · have hl : (((spiTransfer env (buffer.length + 2) (waitUntilIdle env
        { s with busyFlag_ := true
                 txBuffer_ := (s.txBuffer_.set 0 cReadData_).set 1 0 })).2.rxBuffer_.take
          (buffer.length + 2)).drop 2).length = buffer.length := by
      simp [hrx]; omega
    simp only [readData, hf, hnot]
    simp only [Bool.false_eq_true, if_false, gt_iff_lt]
    rw [store, List.take_of_length_le (by rw [hl]), hl, List.drop_length, List.append_nil,
      List.drop_take, Nat.add_sub_cancel]
  · intro hb
    simp [readData, hf, hnot, spiTransfer_success env hb]

end primitives

/-! ## The exclusivity flag and the capacity checks -/

/-- C1 (code defect): `writeData` and `readData` return `error` for a capacity
violation before they reach `busyFlag_.clear`: entered with the flag clear, a
`writeData` of more than `BufferSize - 1` words and a `readData` of more than
`BufferSize - 2` words return `error` and leave the flag set, with everything else
untouched, whatever the bus does. -/
theorem capacity_violation_leaves_flag_set {ω : Type} (env : Env ω) (C : Nat)
    (buffer : List Nat) (s : IT8951 ω) (hf : s.busyFlag_ = false) :
    (C < buffer.length + 1 →
      writeData env C buffer s = (Status.error, { s with busyFlag_ := true })) ∧
    (C < buffer.length + 2 →
      readData env C buffer s = (Status.error, buffer, { s with busyFlag_ := true })) := by
  constructor
  · intro h; simp [writeData, hf, h]
  · intro h; simp [readData, hf, h]

/-- With a capacity of 2 words, a 2-word `writeData` and a 1-word `readData` leave
the flag set, and the next command is refused with `busy`. -/
theorem capacity_violation_leaves_flag_set_witness :
    (IT8951.init 2 (0 : Nat)).busyFlag_ = false ∧
    (writeData (fakeEnv (fun _ => true) (fun _ => []) true) 2 [1, 2]
        (IT8951.init 2 0)).1 = Status.error ∧
    (writeData (fakeEnv (fun _ => true) (fun _ => []) true) 2 [1, 2]
        (IT8951.init 2 0)).2.busyFlag_ = true ∧
    (readData (fakeEnv (fun _ => true) (fun _ => []) true) 2 [0]
        (IT8951.init 2 0)).2.2.busyFlag_ = true ∧
    (wakeUp (fakeEnv (fun _ => true) (fun _ => []) true)
      (writeData (fakeEnv (fun _ => true) (fun _ => []) true) 2 [1, 2]
        (IT8951.init 2 0)).2).1 = Status.busy := by
  have h := capacity_violation_leaves_flag_set
    (fakeEnv (fun _ => true) (fun _ => []) true) 2 [1, 2] (IT8951.init 2 0) rfl
  have h1 := h.1 (by decide)
  have h2 := capacity_violation_leaves_flag_set
    (fakeEnv (fun _ => true) (fun _ => []) true) 2 [0] (IT8951.init 2 0) rfl
  have h3 := h2.2 (by decide)
  refine ⟨rfl, ?_, ?_, ?_, ?_⟩
  · rw [h1]
  · rw [h1]
  · rw [h3]
  · rw [h1]; rfl

/-- C2: for every capacity `C` and every read length (the length of the caller's
buffer), with the flag clear at entry, `readData` returns `ok` only if the length
plus 2 is at most `C`; if it is larger, `readData` returns `error`, the caller's
buffer is unchanged and the bus is not invoked: the trace and the state of the
collaborators are unchanged. -/
theorem readData_capacity {ω : Type} (env : Env ω) (C : Nat) (buffer : List Nat)
    (s : IT8951 ω) (hf : s.busyFlag_ = false) :
    ((readData env C buffer s).1 = Status.ok → buffer.length + 2 ≤ C) ∧
    (C < buffer.length + 2 →
      (readData env C buffer s).1 = Status.error ∧
      (readData env C buffer s).2.1 = buffer ∧
      (readData env C buffer s).2.2.trace = s.trace ∧
      (readData env C buffer s).2.2.world = s.world) := by
  constructor
  · intro h
    by_contra hc
    have hlt : C < buffer.length + 2 := by omega
    simp [readData, hf, hlt] at h
  · intro h; simp [readData, hf, h]

/-- A 3-word read with a capacity of 4 words is refused without a transfer. -/
theorem readData_capacity_witness :
    (IT8951.init 4 (0 : Nat)).busyFlag_ = false ∧
    (readData (fakeEnv (fun _ => true) (fun _ => []) true) 4 [0, 0, 0]
      (IT8951.init 4 0)).1 = Status.error ∧
    (readData (fakeEnv (fun _ => true) (fun _ => []) true) 4 [0, 0, 0]
      (IT8951.init 4 0)).2.2.trace = [] :=
  ⟨rfl,
   ((readData_capacity (fakeEnv (fun _ => true) (fun _ => []) true) 4 [0, 0, 0]
      (IT8951.init 4 0) rfl).2 (by decide)).1,
   ((readData_capacity (fakeEnv (fun _ => true) (fun _ => []) true) 4 [0, 0, 0]
      (IT8951.init 4 0) rfl).2 (by decide)).2.2.1⟩

/-- C3: for every capacity `C` and every payload, with the flag clear at entry,
`writeData` returns `ok` only if the payload length plus 1 is at most `C`; if it is
larger, `writeData` returns `error`, the bus is not invoked (the trace and the state
of the collaborators are unchanged) and the outgoing buffer is not written. -/
theorem writeData_capacity {ω : Type} (env : Env ω) (C : Nat) (buffer : List Nat)
    (s : IT8951 ω) (hf : s.busyFlag_ = false) :
    ((writeData env C buffer s).1 = Status.ok → buffer.length + 1 ≤ C) ∧
    (C < buffer.length + 1 →
      (writeData env C buffer s).1 = Status.error ∧
      (writeData env C buffer s).2.trace = s.trace ∧
      (writeData env C buffer s).2.world = s.world ∧
      (writeData env C buffer s).2.txBuffer_ = s.txBuffer_) := by
  constructor
  · intro h
    by_contra hc
    have hlt : C < buffer.length + 1 := by omega
    simp [writeData, hf, hlt] at h
  · intro h; simp [writeData, hf, h]

/-- A 4-word write with a capacity of 4 words is refused without a transfer. -/
theorem writeData_capacity_witness :
    (IT8951.init 4 (0 : Nat)).busyFlag_ = false ∧
    (writeData (fakeEnv (fun _ => true) (fun _ => []) true) 4 [1, 2, 3, 4]
      (IT8951.init 4 0)).1 = Status.error ∧
    (writeData (fakeEnv (fun _ => true) (fun _ => []) true) 4 [1, 2, 3, 4]
      (IT8951.init 4 0)).2.trace = [] ∧
    (writeData (fakeEnv (fun _ => true) (fun _ => []) true) 4 [1, 2, 3, 4]
      (IT8951.init 4 0)).2.txBuffer_ = [0, 0, 0, 0] :=
  ⟨rfl,
   ((writeData_capacity (fakeEnv (fun _ => true) (fun _ => []) true) 4 [1, 2, 3, 4]
      (IT8951.init 4 0) rfl).2 (by decide)).1,
   ((writeData_capacity (fakeEnv (fun _ => true) (fun _ => []) true) 4 [1, 2, 3, 4]
      (IT8951.init 4 0) rfl).2 (by decide)).2.1,
   ((writeData_capacity (fakeEnv (fun _ => true) (fun _ => []) true) 4 [1, 2, 3, 4]
      (IT8951.init 4 0) rfl).2 (by decide)).2.2.2⟩

/-! ## Facts about the `float` computations of `setVcom` -/

set_option maxRecDepth 100000 in
theorem vcomThreshold_eq :
    F32.div (F32.ofNat 65535) negThousand = F32.fin true (8589804 * 2 ^ 132) := by
  decide

theorem ofNat_zero_eq : F32.ofNat 0 = F32.fin false 0 := by decide

theorem negThousand_eq : negThousand = F32.fin true (1000 * 2 ^ 149) := by decide

/-- The guard of `setVcom` is the accepted range. -/
theorem setVcom_guard (v : F32) :
    (F32.le (F32.div (F32.ofNat 65535) negThousand) v && F32.lt v (F32.ofNat 0))
      = vcomAccepted v := by
  rw [vcomThreshold_eq, ofNat_zero_eq]
  cases v with
  | nan => rfl
  | inf neg => cases neg <;> rfl
  | fin neg mag =>
    cases neg
    · simp only [F32.le, F32.lt, F32.signed, vcomAccepted]
      simp
    · simp only [F32.le, F32.lt, F32.signed, vcomAccepted, if_true]
      rw [Bool.eq_iff_iff]
      simp only [Bool.and_eq_true, decide_eq_true_eq]
      constructor
      · rintro ⟨h1, h2⟩; constructor <;> omega
      · rintro ⟨h1, h2⟩; constructor <;> omega

theorem two_pow_leadingBitAux_le (fuel : Nat) :
    ∀ n : Nat, 0 < n → 2 ^ F32.leadingBitAux fuel n ≤ n := by
  induction fuel with
  | zero => intro n hn; simpa [F32.leadingBitAux] using hn
  | succ fuel ih =>
    intro n hn
    unfold F32.leadingBitAux
    split_ifs with h
    · simpa using hn
    · have h2 : 0 < n / 2 := Nat.div_pos (by omega) (by norm_num)
      have := ih (n / 2) h2
      rw [pow_succ]
      omega

/-- The rounded magnitude exceeds the exact quotient by at most one unit plus a
`2^-23` part of it. -/
theorem roundMag_le (num den : Nat) :
    F32.roundMag num den ≤ num / den + 1 + num / den / 2 ^ 23 := by
  unfold F32.roundMag
  simp only
  by_cases hq : num / den < 2 ^ 24
  · simp only [hq, if_true, pow_zero, mul_one]
    generalize num / den = q
    generalize num % den = r
    split_ifs <;> omega
  · simp only [hq, if_false]
    have hqpos : 0 < num / den := by
      have : (0 : Nat) < 2 ^ 24 := by norm_num
      omega
    have hlb := two_pow_leadingBitAux_le (num / den) (num / den) hqpos
    have hk : 2 ^ (F32.leadingBit (num / den) - 23) * 2 ^ 23 ≤ num / den := by
      by_cases h23 : 23 ≤ F32.leadingBit (num / den)
      · rw [← pow_add, Nat.sub_add_cancel h23]; exact hlb
      · have h0 : F32.leadingBit (num / den) - 23 = 0 := by omega
        rw [h0]; omega
    have hm : num / (den * 2 ^ (F32.leadingBit (num / den) - 23))
        = num / den / 2 ^ (F32.leadingBit (num / den) - 23) := by
      rw [Nat.div_div_eq_div_mul]
    generalize 2 ^ (F32.leadingBit (num / den) - 23) = K at hk hm ⊢
    have hK : K ≤ num / den / 2 ^ 23 := by
      rw [Nat.le_div_iff_mul_le (by norm_num)]; exact hk
    have hle : (num / den / K) * K ≤ num / den := Nat.div_mul_le_self _ _
    have hm1 : (if 2 * (num % (den * K)) < den * K then num / (den * K)
        else if den * K < 2 * (num % (den * K)) then num / (den * K) + 1
        else if num / (den * K) % 2 = 0 then num / (den * K) else num / (den * K) + 1)
        ≤ num / den / K + 1 := by
      rw [hm]; split_ifs <;> omega
    calc _ ≤ (num / den / K + 1) * K := Nat.mul_le_mul_right K hm1
      _ = (num / den / K) * K + K := by ring
      _ ≤ num / den + 1 + num / den / 2 ^ 23 := by omega

/-- In the accepted range the product `vcom * (-1000.0f)` is finite, not negative,
and its integer part fits 16 bits, so that the conversion to `uint16_t` is defined. -/
theorem mul_negThousand_accepted (v : F32) (hv : vcomAccepted v = true) :
    ∃ r : Nat, F32.mul v negThousand = F32.fin false r ∧ r / 2 ^ 149 < 65536 ∧
      F32.toUInt16 (F32.mul v negThousand) = some (r / 2 ^ 149) := by
  match v, hv with
  | F32.fin true mag, hv =>
    simp only [vcomAccepted, decide_eq_true_eq] at hv
    obtain ⟨h0, hT⟩ := hv
    have hq : mag * (1000 * 2 ^ 149) / 2 ^ 149 = mag * 1000 := by
      rw [← Nat.mul_assoc]; exact Nat.mul_div_cancel _ (by positivity)
    have hb := roundMag_le (mag * (1000 * 2 ^ 149)) (2 ^ 149)
    rw [hq] at hb
    have hmul : F32.mul (F32.fin true mag) negThousand
        = F32.ofRatio false (mag * (1000 * 2 ^ 149)) (2 ^ 149) := by
      rw [negThousand_eq]; rfl
    rw [hmul]
    unfold F32.ofRatio
    simp only
    generalize F32.roundMag (mag * (1000 * 2 ^ 149)) (2 ^ 149) = R at hb ⊢
    have hR : R < 65536 * 2 ^ 149 := by omega
    have hno : ¬ (2 ^ 128 * 2 ^ 149 ≤ R) := by omega
    have ht : R / 2 ^ 149 < 65536 := by
      rw [Nat.div_lt_iff_lt_mul (by positivity)]; exact hR
    refine ⟨R, if_neg hno, ht, ?_⟩
    simp only [hno, if_false, F32.toUInt16]
    split_ifs with h1 h2
    · rw [h1]
    · simp at h2
    · rfl

/-! ## Refusal while the flag is held -/

set_option maxRecDepth 100000 in
/-- Counterexample to C4 as stated: with the flag held, `setVcom(0.0f)` returns
`error`, not `busy`. -/
theorem setVcom_held_not_busy :
    ({ IT8951.init 4 (0 : Nat) with busyFlag_ := true }).busyFlag_ = true ∧
    (setVcom (fakeEnv (fun _ => true) (fun _ => []) true) (F32.ofBits 0)
      { IT8951.init 4 (0 : Nat) with busyFlag_ := true }).1 = Status.error ∧
    (setVcom (fakeEnv (fun _ => true) (fun _ => []) true) (F32.ofBits 0)
      { IT8951.init 4 (0 : Nat) with busyFlag_ := true }).1 ≠ Status.busy := by
  decide

/-- C4 (amended): while the exclusivity flag is held, each of `wakeUp`, `standby`,
`sleep`, `getDeviceInfo`, `getVcom`, `enableParameterPack`, `writeImage`,
`isDisplayReady`, `display`, `clear`, and `setVcom` for every argument in the
accepted range, returns status `busy` and leaves the driver and the collaborators
exactly as they were: no bus transfer, no sample of or wait on the busy line (the
trace is unchanged), the flag still held. For an argument outside the accepted
range `setVcom` returns `error` instead, with the same absence of effects. -/
theorem held_flag_refuses {ω : Type} (env : Env ω) (C : Nat) (s : IT8951 ω)
    (hheld : s.busyFlag_ = true) :
    wakeUp env s = (Status.busy, s) ∧
    standby env s = (Status.busy, s) ∧
    sleep env s = (Status.busy, s) ∧
    (∀ beyond, getDeviceInfo env C beyond s = (Status.busy, DeviceInfo.empty, s)) ∧
    (∀ v, vcomAccepted v = true → setVcom env v s = (Status.busy, s)) ∧
    (∀ v, vcomAccepted v = false → setVcom env v s = (Status.error, s)) ∧
    getVcom env C s = (Status.busy, F32.ofNat 0, s) ∧
    enableParameterPack env s = (Status.busy, s) ∧
    (∀ a image x y w h, writeImage env C a image x y w h s = (Status.busy, s)) ∧
    isDisplayReady env C s = (Status.busy, true, s) ∧
    (∀ x y w h, display env x y w h s = (Status.busy, s)) ∧
    (∀ x y w h, clear env x y w h s = (Status.busy, s)) := by
  refine ⟨?_, ?_, ?_, ?_, ?_, ?_, ?_, ?_, ?_, ?_, ?_, ?_⟩
  · exact writeCommand_busy env _ s hheld
  · exact writeCommand_busy env _ s hheld
  · exact writeCommand_busy env _ s hheld
  · intro beyond
    simp [getDeviceInfo, writeCommand_busy env _ s hheld]
  · intro v hv
    simp only [setVcom, setVcom_guard, hv]
    exact writeCommandParameters_busy env _ _ s hheld
  · intro v hv
    simp [setVcom, setVcom_guard, hv]
  · simp [getVcom, writeCommandParameters_busy env _ _ s hheld]
  · exact writeCommandParameters_busy env _ _ s hheld
  · intro a image x y w h
    simp [writeImage, writeRegister, writeCommandParameters_busy env _ _ s hheld]
  · simp [isDisplayReady, readRegister, writeCommandParameters_busy env _ _ s hheld]
  · intro x y w h
    exact writeCommandParameters_busy env _ _ s hheld
  · intro x y w h
    exact writeCommandParameters_busy env _ _ s hheld

set_option maxRecDepth 100000 in
/-- With the flag held on a fresh driver, `wakeUp` and `setVcom(-1.0f)` are refused
with `busy` and nothing is recorded in the trace. -/
theorem held_flag_refuses_witness :
    ({ IT8951.init 4 (0 : Nat) with busyFlag_ := true }).busyFlag_ = true ∧
    wakeUp (fakeEnv (fun _ => true) (fun _ => []) true)
        { IT8951.init 4 (0 : Nat) with busyFlag_ := true }
      = (Status.busy, { IT8951.init 4 (0 : Nat) with busyFlag_ := true }) ∧
    setVcom (fakeEnv (fun _ => true) (fun _ => []) true) (F32.ofBits 0xBF800000)
        { IT8951.init 4 (0 : Nat) with busyFlag_ := true }
      = (Status.busy, { IT8951.init 4 (0 : Nat) with busyFlag_ := true }) :=
  ⟨rfl,
   (held_flag_refuses (fakeEnv (fun _ => true) (fun _ => []) true) 4
      { IT8951.init 4 (0 : Nat) with busyFlag_ := true } rfl).1,
   (held_flag_refuses (fakeEnv (fun _ => true) (fun _ => []) true) 4
      { IT8951.init 4 (0 : Nat) with busyFlag_ := true } rfl).2.2.2.2.1
      (F32.ofBits 0xBF800000) (by decide)⟩

/-! ## `setVcom` -/

/-- C5: `setVcom(v)` is accepted exactly on the range `-65.535 ≤ v < 0` of `float`s
(the lower bound is the `float` nearest to -65.535, the value of the expression
`static_cast<float>(maxValue) / -1000.0f`): for every `v` outside the range,
not-a-number and the infinities included, it returns `error` and leaves the driver
and the collaborators untouched (no transfer, the flag as it was); for every `v`
inside the range, with the flag clear and the bus succeeding, it returns `ok`. -/
theorem setVcom_range {ω : Type} (env : Env ω) (C : Nat) (s : IT8951 ω) (v : F32) :
    (vcomAccepted v = false → setVcom env v s = (Status.error, s)) ∧
    (vcomAccepted v = true → s.busyFlag_ = false → WellSized C s → BusSucceeds env →
      (setVcom env v s).1 = Status.ok) := by
  constructor
  · intro hv
    simp [setVcom, setVcom_guard, hv]
  · intro hv hf hw hb
    simp only [setVcom, setVcom_guard, hv]
    exact (writeCommandParameters_spec env C _ _ s hf hw).2.2.2 hb

set_option maxRecDepth 100000 in
/-- The four values of the specification: `0.0f` and `-65.536f` give `error`,
`-65.535f` and `-1.0f` give `ok`. -/
theorem setVcom_range_witness :
    (setVcom (fakeEnv (fun _ => true) (fun _ => []) true) (F32.ofBits 0x00000000)
      (IT8951.init 4 0)).1 = Status.error ∧
    (setVcom (fakeEnv (fun _ => true) (fun _ => []) true) (F32.ofBits 0xC28311EC)
      (IT8951.init 4 0)).1 = Status.ok ∧
    (setVcom (fakeEnv (fun _ => true) (fun _ => []) true) (F32.ofBits 0xC283126F)
      (IT8951.init 4 0)).1 = Status.error ∧
    (setVcom (fakeEnv (fun _ => true) (fun _ => []) true) (F32.ofBits 0xBF800000)
      (IT8951.init 4 0)).1 = Status.ok := by
  have hw : WellSized 4 (IT8951.init 4 (0 : Nat)) := by
    simp [WellSized, IT8951.init]
  have hb : BusSucceeds (fakeEnv (fun _ => true) (fun _ => []) true) := fun _ _ _ => rfl
  refine ⟨?_, ?_, ?_, ?_⟩
  · rw [(setVcom_range (fakeEnv (fun _ => true) (fun _ => []) true) 4 (IT8951.init 4 0)
      (F32.ofBits 0x00000000)).1 (by decide)]
  · exact (setVcom_range (fakeEnv (fun _ => true) (fun _ => []) true) 4 (IT8951.init 4 0)
      (F32.ofBits 0xC28311EC)).2 (by decide) rfl hw hb
  · rw [(setVcom_range (fakeEnv (fun _ => true) (fun _ => []) true) 4 (IT8951.init 4 0)
      (F32.ofBits 0xC283126F)).1 (by decide)]
  · exact (setVcom_range (fakeEnv (fun _ => true) (fun _ => []) true) 4 (IT8951.init 4 0)
      (F32.ofBits 0xBF800000)).2 (by decide) rfl hw hb

set_option maxRecDepth 100000 in
/-- A second input whose register value is cut off: `v = -1.0009765625f` (bit
pattern `0xBF802000`) is in the accepted range and `v × -1000` is exactly
1000.9765625, whose nearest integer is 1001; the third transfer of `setVcom(v)`
carries the register value 1000. -/
theorem setVcom_register_not_rounded :
    vcomAccepted (F32.ofBits 0xBF802000) = true ∧
    F32.mul (F32.ofBits 0xBF802000) negThousand = F32.fin false (1025000 * 2 ^ 139) ∧
    vcomRegisterRounded (F32.ofBits 0xBF802000) = 1001 ∧
    transfers (setVcom (fakeEnv (fun _ => true) (fun _ => []) true)
        (F32.ofBits 0xBF802000) (IT8951.init 4 0)).2.trace
      = [[0x6000, 0x0039], [0x0000, 0x0001], [0x0000, 1000]] ∧
    transfers (setVcom (fakeEnv (fun _ => true) (fun _ => []) true)
        (F32.ofBits 0xBF802000) (IT8951.init 4 0)).2.trace
      ≠ [[0x6000, 0x0039], [0x0000, 0x0001],
          [0x0000, vcomRegisterRounded (F32.ofBits 0xBF802000)]] := by
  decide

/-- What the code of `setVcom` sends, defect included: for every `v` in the accepted
range, with the flag clear and the bus succeeding, `setVcom(v)` returns `ok` and
performs exactly three 2-word transfers whose outgoing words are `[0x6000, 0x0039]`,
`[0x0000, 0x0001]`, `[0x0000, r]`, where `r` is the integer part of the
single-precision product `v * (-1000.0f)`: the conversion `static_cast<uint16_t>`
discards the fraction where the specification asks for the nearest integer. That
product is finite and not negative and `r` is below 65536, so the conversion is
defined. -/
theorem setVcom_transfers {ω : Type} (env : Env ω) (C : Nat) (s : IT8951 ω) (v : F32)
    (hv : vcomAccepted v = true) (hf : s.busyFlag_ = false) (hw : WellSized C s)
    (hb : BusSucceeds env) :
    ∃ p : Nat, F32.mul v negThousand = F32.fin false p ∧ p / 2 ^ 149 < 65536 ∧
      (setVcom env v s).1 = Status.ok ∧
      transfers (setVcom env v s).2.trace
        = transfers s.trace ++ [[0x6000, 0x0039], [0x0000, 0x0001], [0x0000, p / 2 ^ 149]] := by
  obtain ⟨p, hp, hlt, hcast⟩ := mul_negThousand_accepted v hv
  refine ⟨p, hp, hlt, ?_, ?_⟩
  · simp only [setVcom, setVcom_guard, hv]
    exact (writeCommandParameters_spec env C _ _ s hf hw).2.2.2 hb
  · simp only [setVcom, setVcom_guard, hv]
    rw [hcast]
    exact (writeCommandParameters_spec env C _ _ s hf hw).2.2.1

set_option maxRecDepth 100000 in
/-- For `v = -1.0f` the three transfers of `setVcom` are `[0x6000, 0x0039]`,
`[0x0000, 0x0001]`, `[0x0000, 1000]`. -/
theorem setVcom_transfers_witness :
    vcomAccepted (F32.ofBits 0xBF800000) = true ∧
    (∃ p : Nat, F32.mul (F32.ofBits 0xBF800000) negThousand = F32.fin false p ∧
      p / 2 ^ 149 < 65536 ∧
      (setVcom (fakeEnv (fun _ => true) (fun _ => []) true) (F32.ofBits 0xBF800000)
        (IT8951.init 4 0)).1 = Status.ok ∧
      transfers (setVcom (fakeEnv (fun _ => true) (fun _ => []) true)
          (F32.ofBits 0xBF800000) (IT8951.init 4 0)).2.trace
        = transfers (IT8951.init 4 (0 : Nat)).trace
          ++ [[0x6000, 0x0039], [0x0000, 0x0001], [0x0000, p / 2 ^ 149]]) ∧
    transfers (setVcom (fakeEnv (fun _ => true) (fun _ => []) true)
        (F32.ofBits 0xBF800000) (IT8951.init 4 0)).2.trace
      = [[0x6000, 0x0039], [0x0000, 0x0001], [0x0000, 1000]] :=
  ⟨by decide,
   setVcom_transfers (fakeEnv (fun _ => true) (fun _ => []) true) 4 (IT8951.init 4 0)
     (F32.ofBits 0xBF800000) (by decide) rfl (by simp [WellSized, IT8951.init])
     (fun _ _ _ => rfl),
   by decide⟩

set_option maxRecDepth 100000 in
/-- C6 (code defect): the register value is converted with `static_cast<uint16_t>`,
which discards the fraction, where the specification asks for `round(v × -1000)`.
For `v = -2.001f` (bit pattern `0xC0001062`), which is in the accepted range, the
single-precision product `v * (-1000.0f)` is 2000.9998779296875, whose nearest
integer is 2001; with the flag clear and the bus succeeding `setVcom(v)` returns
`ok` and its three 2-word transfers are `[0x6000, 0x0039]`, `[0x0000, 0x0001]`,
`[0x0000, 2000]`: the register value is 2000, not 2001. The sibling `getVcom` shows
the slip: for the register value 2001 it returns exactly this `v`, so writing back
the value just read lowers the register by one. -/
theorem setVcom_register_truncated :
    vcomAccepted (F32.ofBits 0xC0001062) = true ∧
    F32.mul (F32.ofBits 0xC0001062) negThousand = F32.fin false (16392191 * 2 ^ 136) ∧
    vcomRegisterRounded (F32.ofBits 0xC0001062) = 2001 ∧
    (setVcom (fakeEnv (fun _ => true) (fun _ => []) true) (F32.ofBits 0xC0001062)
      (IT8951.init 4 0)).1 = Status.ok ∧
    transfers (setVcom (fakeEnv (fun _ => true) (fun _ => []) true)
        (F32.ofBits 0xC0001062) (IT8951.init 4 0)).2.trace
      = [[0x6000, 0x0039], [0x0000, 0x0001], [0x0000, 2000]] ∧
    (getVcom (blockEnv [2001]) 4 (IT8951.init 4 0)).1 = Status.ok ∧
    (getVcom (blockEnv [2001]) 4 (IT8951.init 4 0)).2.1 = F32.ofBits 0xC0001062 := by
  decide

/-! ## `getDeviceInfo` -/

theorem cString_append_of_mem (a b : List Nat) (h : 0 ∈ a) :
    cString (a ++ b) = cString a := by
  induction a with
  | nil => simp at h
  | cons x xs ih =>
    by_cases hx : x = 0
    · subst hx; simp [cString, List.takeWhile]
    · have hmem : 0 ∈ xs := by
        rcases List.mem_cons.mp h with h0 | h0
        · exact absurd h0.symm hx
        · exact h0
      have hp : (x != 0) = true := by simpa using hx
      simp only [cString, List.cons_append, List.takeWhile_cons, hp, if_true]
      congr 1
      exact ih hmem

theorem bytesOf_append (a b : List Nat) : bytesOf (a ++ b) = bytesOf a ++ bytesOf b := by
  simp [bytesOf]

theorem address_combine (lo hi : Nat) (hlo : lo < 65536) (hhi : hi < 65536) :
    ((hi <<< 16) % 2 ^ 32) ||| lo = hi * 65536 + lo := by
  have h1 : hi <<< 16 = 2 ^ 16 * hi := by rw [Nat.shiftLeft_eq, Nat.mul_comm]
  have h2 : 2 ^ 16 * hi < 2 ^ 32 := by omega
  rw [h1, Nat.mod_eq_of_lt h2, ← Nat.mul_add_lt_is_or (by omega) hi]
  omega

/-- Result of `getDeviceInfo` entered with the flag clear, a capacity of at least 22
words and a bus that succeeds, in terms of the content of `rxBuffer_` it leaves. -/
theorem getDeviceInfo_eq {ω : Type} (env : Env ω) (C : Nat) (beyond : List Nat)
    (s : IT8951 ω) (hf : s.busyFlag_ = false) (hw : WellSized C s) (hC : 22 ≤ C)
    (hb : BusSucceeds env) :
    (getDeviceInfo env C beyond s).1 = Status.ok ∧
    (getDeviceInfo env C beyond s).2.2.rxBuffer_.length = C ∧
    (getDeviceInfo env C beyond s).2.1 = parseDeviceInfo
      (((getDeviceInfo env C beyond s).2.2.rxBuffer_.drop 2).take 20) beyond := by
  obtain ⟨c1, c2, _, c4⟩ := writeCommand_spec env C cGetDeviceInfo_ s hf hw
  have hlen : (List.replicate 20 0 : List Nat).length + 2 ≤ C := by
    rw [List.length_replicate]; exact hC
  obtain ⟨_, d2, _, d4, d5⟩ := readData_spec env C (List.replicate 20 0)
    (writeCommand env cGetDeviceInfo_ s).2 c1 c2 hlen
  have e1 := c4 hb
  have e2 := d5 hb
  rw [List.length_replicate] at d4
  have hg : getDeviceInfo env C beyond s = (Status.ok,
      parseDeviceInfo
        (readData env C (List.replicate 20 0) (writeCommand env cGetDeviceInfo_ s).2).2.1
        beyond,
      (readData env C (List.replicate 20 0) (writeCommand env cGetDeviceInfo_ s).2).2.2) := by
    unfold getDeviceInfo
    simp only [e1, e2, ne_eq, not_true_eq_false, if_false]
  rw [hg]
  exact ⟨rfl, d2.2.2, by rw [← d4]⟩

/-- C7: for every capacity `C ≥ 22`, with the flag clear at entry and a bus that
succeeds, `getDeviceInfo` returns `ok`, and with `w` the 20-word response block (the
words the read transfer left in slots 2 to 21 of the incoming buffer): width is
`w[0]`, height is `w[1]`, imageBufferAddress is `w[3] * 65536 + w[2]` (the words being
16-bit), firmwareVersion is the bytes of the words `w[4..11]`, low byte of each word
first, up to but excluding the first zero byte whenever these 8 words contain a zero
byte, and lutVersion is the same for the words `w[12..19]`; in both cases the
result does not depend on the memory after the block. -/
theorem getDeviceInfo_parse {ω : Type} (env : Env ω) (C : Nat) (beyond : List Nat)
    (s : IT8951 ω) (hf : s.busyFlag_ = false) (hw : WellSized C s) (hC : 22 ≤ C)
    (hb : BusSucceeds env) :
    ∃ w : List Nat,
      w = ((getDeviceInfo env C beyond s).2.2.rxBuffer_.drop 2).take 20 ∧
      w.length = 20 ∧
      (getDeviceInfo env C beyond s).1 = Status.ok ∧
      (getDeviceInfo env C beyond s).2.1.width = w.getD 0 0 ∧
      (getDeviceInfo env C beyond s).2.1.height = w.getD 1 0 ∧
      (w.getD 2 0 < 65536 → w.getD 3 0 < 65536 →
        (getDeviceInfo env C beyond s).2.1.imageBufferAddress
          = w.getD 3 0 * 65536 + w.getD 2 0) ∧
      (0 ∈ bytesOf ((w.drop 4).take 8) →
        (getDeviceInfo env C beyond s).2.1.firmwareVersion
          = (bytesOf ((w.drop 4).take 8)).takeWhile (fun b => b != 0)) ∧
      (0 ∈ bytesOf ((w.drop 12).take 8) →
        (getDeviceInfo env C beyond s).2.1.lutVersion
          = (bytesOf ((w.drop 12).take 8)).takeWhile (fun b => b != 0)) := by
  obtain ⟨h1, h2, h3⟩ := getDeviceInfo_eq env C beyond s hf hw hC hb
  have hlen : (((getDeviceInfo env C beyond s).2.2.rxBuffer_.drop 2).take 20).length = 20 := by
    simp only [List.length_take, List.length_drop, h2]; omega
  refine ⟨_, rfl, hlen, h1, ?_, ?_, ?_, ?_, ?_⟩
  · rw [h3]; rfl
  · rw [h3]; rfl
  · intro hlo hhi
    rw [h3]
    exact address_combine _ _ hlo hhi
  · intro hz
    rw [h3]
    generalize ((getDeviceInfo env C beyond s).2.2.rxBuffer_.drop 2).take 20 = w at hz hlen ⊢
    have hsplit : w.drop 4 = (w.drop 4).take 8 ++ w.drop 12 := by
      have h := (List.take_append_drop 8 (w.drop 4)).symm
      rw [List.drop_drop] at h
      exact h
    have key : bytesOf (w.drop 4) ++ beyond
        = bytesOf ((w.drop 4).take 8) ++ (bytesOf (w.drop 12) ++ beyond) := by
      rw [← List.append_assoc, ← bytesOf_append, ← hsplit]
    show cString (bytesOf (w.drop 4) ++ beyond) = _
    rw [key, cString_append_of_mem _ _ hz]
    rfl
  · intro hz
    rw [h3]
    generalize ((getDeviceInfo env C beyond s).2.2.rxBuffer_.drop 2).take 20 = w at hz hlen ⊢
    have hfull : (w.drop 12).take 8 = w.drop 12 :=
      List.take_of_length_le (by rw [List.length_drop, hlen])
    rw [hfull] at hz ⊢
    show cString (bytesOf (w.drop 12) ++ beyond) = _
    rw [cString_append_of_mem _ _ hz]
    rfl

/-- The round trip of the specification: the block `infoBlock` parses to width 100,
height 200, imageBufferAddress `0x00012345`, firmwareVersion "FW1.0" and lutVersion
"LUT1". -/
theorem getDeviceInfo_parse_witness :
    (getDeviceInfo (blockEnv infoBlock) 22 [] (IT8951.init 22 0)).2.1
      = { width := 100, height := 200, imageBufferAddress := 0x00012345,
          firmwareVersion := ascii "FW1.0", lutVersion := ascii "LUT1" } ∧
    ∃ w : List Nat,
      w = ((getDeviceInfo (blockEnv infoBlock) 22 [] (IT8951.init 22 0)).2.2.rxBuffer_.drop
        2).take 20 ∧
      w.length = 20 ∧
      (getDeviceInfo (blockEnv infoBlock) 22 [] (IT8951.init 22 0)).1 = Status.ok ∧
      (getDeviceInfo (blockEnv infoBlock) 22 [] (IT8951.init 22 0)).2.1.width = w.getD 0 0 ∧
      (getDeviceInfo (blockEnv infoBlock) 22 [] (IT8951.init 22 0)).2.1.height = w.getD 1 0 ∧
      (w.getD 2 0 < 65536 → w.getD 3 0 < 65536 →
        (getDeviceInfo (blockEnv infoBlock) 22 [] (IT8951.init 22 0)).2.1.imageBufferAddress
          = w.getD 3 0 * 65536 + w.getD 2 0) ∧
      (0 ∈ bytesOf ((w.drop 4).take 8) →
        (getDeviceInfo (blockEnv infoBlock) 22 [] (IT8951.init 22 0)).2.1.firmwareVersion
          = (bytesOf ((w.drop 4).take 8)).takeWhile (fun b => b != 0)) ∧
      (0 ∈ bytesOf ((w.drop 12).take 8) →
        (getDeviceInfo (blockEnv infoBlock) 22 [] (IT8951.init 22 0)).2.1.lutVersion
          = (bytesOf ((w.drop 12).take 8)).takeWhile (fun b => b != 0)) :=
  ⟨by decide,
   getDeviceInfo_parse (blockEnv infoBlock) 22 [] (IT8951.init 22 0) rfl
     (by simp [WellSized, IT8951.init]) (by decide) (fun _ _ _ => rfl)⟩

/-- C8 (code defect): the texts are read with `std::string{char*}`, which has no
length bound. For the block `unterminatedBlock`, whose firmware field has no zero
byte, firmwareVersion has 20 bytes and contains the text "LUT1" of words 12 and 13;
for the block `fullBlock`, without zero byte in either field, both texts run past the
end of the 20-word block into the memory behind it (here the bytes `X`, `Y`, 0). -/
theorem getDeviceInfo_text_overrun :
    (getDeviceInfo (blockEnv unterminatedBlock) 22 [] (IT8951.init 22 0)).1 = Status.ok ∧
    (getDeviceInfo (blockEnv unterminatedBlock) 22 [] (IT8951.init 22 0)).2.1.firmwareVersion
      = ascii "AAAAAAAAAAAAAAAALUT1" ∧
    (getDeviceInfo (blockEnv unterminatedBlock) 22 []
      (IT8951.init 22 0)).2.1.firmwareVersion.length = 20 ∧
    (getDeviceInfo (blockEnv fullBlock) 22 [0x58, 0x59, 0] (IT8951.init 22 0)).2.1.lutVersion
      = ascii "BBBBBBBBBBBBBBBBXY" ∧
    (getDeviceInfo (blockEnv fullBlock) 22 [0x58, 0x59, 0]
      (IT8951.init 22 0)).2.1.firmwareVersion.length = 34 := by
  decide

/-! ## `writeImage` -/

/-- C9: for every 32-bit address `a`, every `x`, `y`, `w`, `h` and every pixel
payload `p` with `len(p) + 1 ≤ C`, with the flag clear and the bus succeeding,
`writeImage(a, p, x, y, w, h)` returns `ok` and its bus transfers are, in this order:
the register write of `a >> 16` to register `0x020A`, the register write of
`a mod 65536` to register `0x0208`, the command `0x0021` with the five parameters
`[0x0020, x, y, w, h]`, one data transfer `[0x0000] ++ p`, and the command `0x0022`. -/
theorem writeImage_transfers {ω : Type} (env : Env ω) (C a : Nat) (image : List Nat)
    (x y w h : Nat) (s : IT8951 ω) (hf : s.busyFlag_ = false) (hw : WellSized C s)
    (ha : a < 2 ^ 32) (hfit : image.length + 1 ≤ C) (hb : BusSucceeds env) :
    (writeImage env C a image x y w h s).1 = Status.ok ∧
    transfers (writeImage env C a image x y w h s).2.trace
      = transfers s.trace ++
        [[0x6000, 0x0011], [0x0000, 0x020A], [0x0000, a / 65536],
         [0x6000, 0x0011], [0x0000, 0x0208], [0x0000, a % 65536],
         [0x6000, 0x0021], [0x0000, 0x0020], [0x0000, x], [0x0000, y], [0x0000, w],
         [0x0000, h],
         0x0000 :: image,
         [0x6000, 0x0022]] := by
  have ha1 : a / 2 ^ 16 % 65536 = a / 65536 := by omega
  obtain ⟨f1, w1, t1, o1⟩ := writeCommandParameters_spec env C cWriteRegister_
    [(0x208 + 2) % 65536, a / 2 ^ 16 % 65536] s hf hw
  obtain ⟨f2, w2, t2, o2⟩ := writeCommandParameters_spec env C cWriteRegister_
    [0x208, a % 65536] _ f1 w1
  obtain ⟨f3, w3, t3, o3⟩ := writeCommandParameters_spec env C cLoadImageArea_
    [0x0020, x, y, w, h] _ f2 w2
  obtain ⟨f4, w4, t4, o4⟩ := writeData_spec env C image _ f3 w3 hfit
  obtain ⟨_, _, t5, o5⟩ := writeCommand_spec env C cEndLoadImage_ _ f4 w4
  have e1 := o1 hb
  have e2 := o2 hb
  have e3 := o3 hb
  have e4 := o4 hb
  have e5 := o5 hb
  have hrun : writeImage env C a image x y w h s
      = writeCommand env cEndLoadImage_
          (writeData env C image
            (writeCommandParameters env cLoadImageArea_ [0x0020, x, y, w, h]
              (writeCommandParameters env cWriteRegister_ [0x208, a % 65536]
                (writeCommandParameters env cWriteRegister_
                  [(0x208 + 2) % 65536, a / 2 ^ 16 % 65536] s).2).2).2).2 := by
    unfold writeImage writeRegister
    simp only [e1, e2, e3, e4, ne_eq, not_true_eq_false, if_false]
  rw [hrun]
  refine ⟨e5, ?_⟩
  rw [t5, t4, t3, t2, t1, ha1]
  simp [cWriteCommand_, cWriteData_, cWriteRegister_, cLoadImageArea_, cEndLoadImage_]

/-- The address `0x00012345` writes `0x0001` to register `0x020A` and `0x2345` to
register `0x0208` before the command `0x0021`. -/
theorem writeImage_transfers_witness :
    (0x00012345 : Nat) < 2 ^ 32 ∧
    (writeImage (fakeEnv (fun _ => true) (fun _ => []) true) 4 0x00012345 [7, 8, 9]
      1 2 3 4 (IT8951.init 4 0)).1 = Status.ok ∧
    transfers (writeImage (fakeEnv (fun _ => true) (fun _ => []) true) 4 0x00012345
        [7, 8, 9] 1 2 3 4 (IT8951.init 4 0)).2.trace
      = [[0x6000, 0x0011], [0x0000, 0x020A], [0x0000, 0x0001],
         [0x6000, 0x0011], [0x0000, 0x0208], [0x0000, 0x2345],
         [0x6000, 0x0021], [0x0000, 0x0020], [0x0000, 1], [0x0000, 2], [0x0000, 3],
         [0x0000, 4],
         [0x0000, 7, 8, 9],
         [0x6000, 0x0022]] :=
  ⟨by decide,
   (writeImage_transfers (fakeEnv (fun _ => true) (fun _ => []) true) 4 0x00012345
     [7, 8, 9] 1 2 3 4 (IT8951.init 4 0) rfl (by simp [WellSized, IT8951.init])
     (by decide) (by decide) (fun _ _ _ => rfl)).1,
   (writeImage_transfers (fakeEnv (fun _ => true) (fun _ => []) true) 4 0x00012345
     [7, 8, 9] 1 2 3 4 (IT8951.init 4 0) rfl (by simp [WellSized, IT8951.init])
     (by decide) (by decide) (fun _ _ _ => rfl)).2⟩

/-! ## `isDisplayReady` -/

/-- Counterexample to C10 as stated: the bus delivers the nonzero word 5 for the
status register and reports a failure of that transfer; `isDisplayReady` then
returns status `error` with ready = true. -/
theorem isDisplayReady_failed_poll :
    (isDisplayReady (fakeEnv (fun i => decide (i < 2)) (fun _ => [0, 0, 5]) true) 3
      (IT8951.init 3 0)).1 = Status.error ∧
    (isDisplayReady (fakeEnv (fun i => decide (i < 2)) (fun _ => [0, 0, 5]) true) 3
      (IT8951.init 3 0)).2.1 = true ∧
    (isDisplayReady (fakeEnv (fun i => decide (i < 2)) (fun _ => [0, 0, 5]) true) 3
      (IT8951.init 3 0)).2.2.rxBuffer_.getD 2 0 = 5 := by
  decide

/-- C10 (amended): entered with the flag clear, for every outcome of
`isDisplayReady` whose status is `ok`, ready is true if and only if the value polled
from the status register (the third incoming word of the read transfer) is exactly
0; and with a capacity of at least 3 words and a bus that succeeds the status is
`ok`, so that a nonzero polled word gives (`ok`, false) and the word 0 gives
(`ok`, true). -/
theorem isDisplayReady_ready_iff {ω : Type} (env : Env ω) (C : Nat) (s : IT8951 ω)
    (hf : s.busyFlag_ = false) (hw : WellSized C s) :
    ((isDisplayReady env C s).1 = Status.ok →
      ((isDisplayReady env C s).2.1 = true
        ↔ (isDisplayReady env C s).2.2.rxBuffer_.getD 2 0 = 0)) ∧
    (3 ≤ C → BusSucceeds env → (isDisplayReady env C s).1 = Status.ok) := by
  obtain ⟨f1, w1, _, o1⟩ := writeCommandParameters_spec env C cReadRegister_ [0x1224] s hf hw
  have hcap := readData_capacity env C [0] _ f1
  constructor
  · intro hok
    have e1 : (writeCommandParameters env cReadRegister_ [0x1224] s).1 = Status.ok := by
      by_contra hne
      simp [isDisplayReady, readRegister, hne] at hok
    have e2 : (readData env C [0]
        (writeCommandParameters env cReadRegister_ [0x1224] s).2).1 = Status.ok := by
      by_contra hne
      simp [isDisplayReady, readRegister, e1, hne] at hok
    have hC : ([0] : List Nat).length + 2 ≤ C := hcap.1 e2
    obtain ⟨_, d2, _, d4, _⟩ := readData_spec env C [0] _ f1 w1 hC
    have hrun : isDisplayReady env C s = (Status.ok,
        decide (0 = (readData env C [0]
          (writeCommandParameters env cReadRegister_ [0x1224] s).2).2.1.headD 0),
        (readData env C [0] (writeCommandParameters env cReadRegister_ [0x1224] s).2).2.2) := by
      unfold isDisplayReady readRegister
      simp only [e1, e2, ne_eq, not_true_eq_false, if_false]
    rw [hrun]
    simp only [decide_eq_true_eq]
    rw [d4]
    have hlen := d2.2.2
    simp only [List.length_singleton] at hC ⊢
    generalize (readData env C [0]
      (writeCommandParameters env cReadRegister_ [0x1224] s).2).2.2.rxBuffer_ = rx at hlen ⊢
    match rx, hlen with
    | _ :: _ :: z :: _, _ => simp [eq_comm]
    | [], hl => simp at hl; omega
    | [_], hl => simp at hl; omega
    | [_, _], hl => simp at hl; omega
  · intro hC hb
    have e1 := o1 hb
    obtain ⟨_, _, _, _, d5⟩ := readData_spec env C [0] _ f1 w1 (by simpa using hC)
    have e2 := d5 hb
    unfold isDisplayReady readRegister
    simp only [e1, e2, ne_eq, not_true_eq_false, if_false]

/-- A polled word 0 gives (`ok`, true) and a polled word 5 gives (`ok`, false). -/
theorem isDisplayReady_ready_iff_witness :
    (isDisplayReady (blockEnv [0]) 3 (IT8951.init 3 0)).1 = Status.ok ∧
    (isDisplayReady (blockEnv [0]) 3 (IT8951.init 3 0)).2.1 = true ∧
    (isDisplayReady (blockEnv [5]) 3 (IT8951.init 3 0)).1 = Status.ok ∧
    (isDisplayReady (blockEnv [5]) 3 (IT8951.init 3 0)).2.1 = false := by
  have h0 := isDisplayReady_ready_iff (blockEnv [0]) 3 (IT8951.init 3 0) rfl
    (by simp [WellSized, IT8951.init])
  have h5 := isDisplayReady_ready_iff (blockEnv [5]) 3 (IT8951.init 3 0) rfl
    (by simp [WellSized, IT8951.init])
  have ok0 := h0.2 (by decide) (fun _ _ _ => rfl)
  have ok5 := h5.2 (by decide) (fun _ _ _ => rfl)
  refine ⟨ok0, (h0.1 ok0).2 (by decide), ok5, ?_⟩
  have hn : ¬ ((isDisplayReady (blockEnv [5]) 3 (IT8951.init 3 0)).2.1 = true) :=
    fun ht => absurd ((h5.1 ok5).1 ht) (by decide)
  simpa using hn

/-! ## Transactions of the primitives, for every behaviour of the bus -/

theorem framedBy_nil : framedBy [] = [] := rfl

theorem framedBy_append (a b : List Transaction) :
    framedBy (a ++ b) = framedBy a ++ framedBy b := by
  simp [framedBy]

theorem framedBy_cons (t : Transaction) (ts : List Transaction) :
    framedBy (t :: ts) = t.events ++ framedBy ts := by
  simp [framedBy]

theorem framedBy_singleton (t : Transaction) : framedBy [t] = t.events := by
  simp [framedBy]

theorem transfers_waitRun (r : WaitRun) : transfers r.events = [] := by
  cases r <;> rfl

theorem transfers_framedBy (ts : List Transaction) :
    transfers (framedBy ts) = ts.map Transaction.tx := by
  induction ts with
  | nil => rfl
  | cons t ts ih =>
    rw [framedBy_cons, transfers_append, ih]
    simp [Transaction.events, transfers_append, transfers_waitRun, transfers]

theorem Framed.refl {ω : Type} (s : IT8951 ω) : Framed s s :=
  ⟨[], by simp [framedBy]⟩

theorem Framed.trans {ω : Type} {s s1 s2 : IT8951 ω} (h1 : Framed s s1)
    (h2 : Framed s1 s2) : Framed s s2 := by
  obtain ⟨a, ha⟩ := h1
  obtain ⟨b, hb⟩ := h2
  exact ⟨a ++ b, by rw [hb, ha, framedBy_append, List.append_assoc]⟩

section transactions

variable {ω : Type} (env : Env ω)

/-- An invocation of `waitUntilIdle` appends the events of one of its three runs. -/
theorem waitUntilIdle_trace (s : IT8951 ω) :
    ∃ run : WaitRun, (waitUntilIdle env s).trace = s.trace ++ run.events := by
  simp only [waitUntilIdle]
  split_ifs
  · exact ⟨WaitRun.idle, rfl⟩
  · exact ⟨WaitRun.idleAfterRegistering, rfl⟩
  · exact ⟨WaitRun.suspended, rfl⟩

theorem store_take_length (rx resp : List Nat) (n : Nat) :
    (store (rx.take n) resp).length = min n rx.length := by
  rw [store_length, List.length_take]

theorem take_append_drop_fit (r rx : List Nat) (n : Nat)
    (h : r.length = min n rx.length) : (r ++ rx.drop n).take n = r := by
  by_cases hn : n ≤ rx.length
  · rw [Nat.min_eq_left hn] at h
    exact List.take_left' h
  · rw [List.drop_of_length_le (by omega), List.append_nil]
    exact List.take_of_length_le (by omega)

/-- The pair `waitUntilIdle(); spi_.transfer(...)` of every primitive is one
transaction. -/
theorem waitTransfer_run (n : Nat) (s : IT8951 ω) :
    ∃ t : Transaction,
      (spiTransfer env n (waitUntilIdle env s)).2.trace = s.trace ++ t.events ∧
      t.tx = s.txBuffer_.take n ∧
      t.rx = (spiTransfer env n (waitUntilIdle env s)).2.rxBuffer_.take n ∧
      t.rx.length = min n s.rxBuffer_.length ∧
      t.success = (spiTransfer env n (waitUntilIdle env s)).1 := by
  obtain ⟨run, hrun⟩ := waitUntilIdle_trace env s
  refine ⟨⟨run, s.txBuffer_.take n,
    store (s.rxBuffer_.take n)
      (env.transfer (waitUntilIdle env s).world (s.txBuffer_.take n)
        (s.rxBuffer_.take n)).2.1,
    (spiTransfer env n (waitUntilIdle env s)).1⟩, ?_, rfl, ?_, ?_, rfl⟩
  · simp [spiTransfer, Transaction.events, hrun]
  · simp only [spiTransfer, waitUntilIdle_txBuffer, waitUntilIdle_rxBuffer]
    exact (take_append_drop_fit _ _ _ (store_take_length _ _ _)).symm
  · exact store_take_length _ _ _

/-- Transaction of `writeCommand(command)` entered with the flag clear. -/
theorem writeCommand_run (C command : Nat) (s : IT8951 ω)
    (hf : s.busyFlag_ = false) (hw : WellSized C s) :
    ∃ t : Transaction,
      (writeCommand env command s).2.trace = s.trace ++ framedBy [t] ∧
      t.tx = [cWriteCommand_, command] ∧
      t.rx.length = 2 ∧
      (writeCommand env command s).1 = (if t.success then Status.ok else Status.error) := by
  obtain ⟨h2, htx, hrx⟩ := hw
  obtain ⟨t, k1, k2, _, k4, k5⟩ := waitTransfer_run env 2
    { s with busyFlag_ := true
             txBuffer_ := (s.txBuffer_.set 0 cWriteCommand_).set 1 command }
  refine ⟨t, ?_, ?_, ?_, ?_⟩
  · rw [framedBy_singleton, ← k1]
    simp [writeCommand, hf]
  · rw [k2]; exact take_two_set _ _ _ (by omega)
  · rw [k4]; simp only [hrx]; omega
  · rw [k5]
    simp [writeCommand, hf]

/-- Transactions of the parameter loop of `writeCommand(command, parameters)`. -/
theorem parameterFold_run (ps : List Nat) :
    ∀ (acc : Status × IT8951 ω) (y : Nat) (rest : List Nat),
      acc.2.txBuffer_ = cWriteData_ :: y :: rest → 2 ≤ acc.2.rxBuffer_.length →
      ∃ ts : List Transaction,
        (ps.foldl (parameterStep env) acc).2.trace = acc.2.trace ++ framedBy ts ∧
        ts.map Transaction.tx = ps.map (fun p => [cWriteData_, p]) ∧
        (∀ t ∈ ts, t.rx.length = 2) ∧
        (ps.foldl (parameterStep env) acc).1
          = (if ts.all (fun t => t.success) then acc.1 else Status.error) := by
  induction ps with
  | nil =>
    intro acc y rest _ _
    exact ⟨[], by simp [framedBy], rfl, by simp, by simp⟩
  | cons p ps ih =>
    intro acc y rest htx hrx
    obtain ⟨t, k1, k2, _, k4, k5⟩ := waitTransfer_run env 2
      { acc.2 with txBuffer_ := acc.2.txBuffer_.set 1 p }
    have hstep_tx : (parameterStep env acc p).2.txBuffer_ = cWriteData_ :: p :: rest := by
      simp [parameterStep, htx]
    have hstep_rx : 2 ≤ (parameterStep env acc p).2.rxBuffer_.length := by
      simp only [parameterStep, spiTransfer_rxBuffer_length, waitUntilIdle_rxBuffer]
      exact hrx
    have hstep_trace : (parameterStep env acc p).2.trace = acc.2.trace ++ t.events := k1
    have hstep_status : (parameterStep env acc p).1
        = (if t.success then acc.1 else Status.error) := by
      rw [k5]; rfl
    obtain ⟨ts, i1, i2, i3, i4⟩ := ih (parameterStep env acc p) p rest hstep_tx hstep_rx
    refine ⟨t :: ts, ?_, ?_, ?_, ?_⟩
    · rw [List.foldl_cons, i1, hstep_trace, framedBy_cons, List.append_assoc]
    · rw [List.map_cons, List.map_cons, i2, k2]
      simp [htx]
    · intro u hu
      rcases List.mem_cons.mp hu with h | h
      · rw [h, k4]
        simp only
        omega
      · exact i3 u h
    · rw [List.foldl_cons, i4, hstep_status, List.all_cons]
      cases t.success <;> cases ts.all (fun t => t.success) <;> simp

/-- Transactions of `writeCommand(command, parameters)` entered with the flag clear:
one for the command and one for each parameter, whatever the bus reports, and the
status is `error` exactly when one of them failed. -/
theorem writeCommandParameters_run (C command : Nat) (ps : List Nat) (s : IT8951 ω)
    (hf : s.busyFlag_ = false) (hw : WellSized C s) :
    ∃ ts : List Transaction,
      (writeCommandParameters env command ps s).2.trace = s.trace ++ framedBy ts ∧
      ts.map Transaction.tx
        = [cWriteCommand_, command] :: ps.map (fun p => [cWriteData_, p]) ∧
      (∀ t ∈ ts, t.rx.length = 2) ∧
      (writeCommandParameters env command ps s).1
        = (if ts.all (fun t => t.success) then Status.ok else Status.error) := by
  obtain ⟨h2, htx, hrx⟩ := hw
  obtain ⟨x, y, rest, hs⟩ : ∃ x y rest, s.txBuffer_ = x :: y :: rest := by
    match hm : s.txBuffer_ with
    | [] => rw [hm] at htx; simp at htx; omega
    | [_] => rw [hm] at htx; simp at htx; omega
    | x :: y :: rest => exact ⟨x, y, rest, rfl⟩
  obtain ⟨t, k1, k2, _, k4, k5⟩ := waitTransfer_run env 2
    { s with busyFlag_ := true
             txBuffer_ := (s.txBuffer_.set 0 cWriteCommand_).set 1 command }
  obtain ⟨ts, i1, i2, i3, i4⟩ := parameterFold_run env ps
    (if (spiTransfer env 2 (waitUntilIdle env
        { s with busyFlag_ := true
                 txBuffer_ := (s.txBuffer_.set 0 cWriteCommand_).set 1 command })).1
      then Status.ok else Status.error,
     { (spiTransfer env 2 (waitUntilIdle env
        { s with busyFlag_ := true
                 txBuffer_ := (s.txBuffer_.set 0 cWriteCommand_).set 1 command })).2 with
       txBuffer_ := (spiTransfer env 2 (waitUntilIdle env
        { s with busyFlag_ := true
                 txBuffer_ := (s.txBuffer_.set 0 cWriteCommand_).set 1 command })).2.txBuffer_.set
          0 cWriteData_ })
    command rest (by simp [hs]) (by simp [hrx, h2])
  refine ⟨t :: ts, ?_, ?_, ?_, ?_⟩
  · simp only [writeCommandParameters, hf]
    simp only [Bool.false_eq_true, if_false]
    rw [i1, framedBy_cons, ← List.append_assoc, ← k1]
  · rw [List.map_cons, i2, k2]
    simp [hs]
  · intro u hu
    rcases List.mem_cons.mp hu with h | h
    · rw [h, k4]
      simp only [hrx]
      omega
    · exact i3 u h
  · simp only [writeCommandParameters, hf]
    simp only [Bool.false_eq_true, if_false]
    rw [i4, List.all_cons, k5]
    cases (spiTransfer env 2 (waitUntilIdle env
        { s with busyFlag_ := true
                 txBuffer_ := (s.txBuffer_.set 0 cWriteCommand_).set 1 command })).1 <;>
      cases ts.all (fun t => t.success) <;> simp

/-- Transaction of `writeData` entered with the flag clear and a payload that fits. -/
theorem writeData_run (C : Nat) (buffer : List Nat) (s : IT8951 ω)
    (hf : s.busyFlag_ = false) (hw : WellSized C s) (hfit : buffer.length + 1 ≤ C) :
    ∃ t : Transaction,
      (writeData env C buffer s).2.trace = s.trace ++ framedBy [t] ∧
      t.tx = cWriteData_ :: buffer ∧
      t.rx.length = buffer.length + 1 ∧
      (writeData env C buffer s).1 = (if t.success then Status.ok else Status.error) := by
  obtain ⟨h2, htx, hrx⟩ := hw
  obtain ⟨x, rest, hs⟩ : ∃ x rest, s.txBuffer_ = x :: rest := by
    match hm : s.txBuffer_ with
    | [] => rw [hm] at htx; simp at htx; omega
    | x :: rest => exact ⟨x, rest, rfl⟩
  have hlen : rest.length + 1 = C := by rw [← htx, hs]; simp
  have hnot : ¬ (C < buffer.length + 1) := by omega
  have hle : buffer.length ≤ rest.length := by omega
  obtain ⟨t, k1, k2, _, k4, k5⟩ := waitTransfer_run env (buffer.length + 1)
    { s with busyFlag_ := true
             txBuffer_ := (s.txBuffer_.set 0 cWriteData_).take 1
               ++ store ((s.txBuffer_.set 0 cWriteData_).drop 1) buffer }
  refine ⟨t, ?_, ?_, ?_, ?_⟩
  · rw [framedBy_singleton, ← k1]
    simp [writeData, hf, hnot]
  · rw [k2]
    simp [hs, store, List.take_append_eq_append_take, List.take_of_length_le hle]
  · rw [k4]; simp only [hrx]; omega
  · rw [k5]
    simp [writeData, hf, hnot]

/-- Transaction of `readData` entered with the flag clear and a length that fits. -/
theorem readData_run (C : Nat) (buffer : List Nat) (s : IT8951 ω)
    (hf : s.busyFlag_ = false) (hw : WellSized C s) (hfit : buffer.length + 2 ≤ C) :
    ∃ t : Transaction,
      (readData env C buffer s).2.2.trace = s.trace ++ framedBy [t] ∧
      t.tx = cReadData_ :: 0 :: (s.txBuffer_.drop 2).take buffer.length ∧
      t.rx.length = buffer.length + 2 ∧
      (readData env C buffer s).2.1 = t.rx.drop 2 ∧
      (readData env C buffer s).1 = (if t.success then Status.ok else Status.error) := by
  obtain ⟨h2, htx, hrx⟩ := hw
  obtain ⟨x, y, rest, hs⟩ : ∃ x y rest, s.txBuffer_ = x :: y :: rest := by
    match hm : s.txBuffer_ with
    | [] => rw [hm] at htx; simp at htx; omega
    | [_] => rw [hm] at htx; simp at htx; omega
    | x :: y :: rest => exact ⟨x, y, rest, rfl⟩
  have hnot : ¬ (C < buffer.length + 2) := by omega
  obtain ⟨t, k1, k2, k3, k4, k5⟩ := waitTransfer_run env (buffer.length + 2)
    { s with busyFlag_ := true
             txBuffer_ := (s.txBuffer_.set 0 cReadData_).set 1 0 }
  have hrxlen : t.rx.length = buffer.length + 2 := by
    rw [k4]; simp only [hrx]; omega
  refine ⟨t, ?_, ?_, hrxlen, ?_, ?_⟩
  · rw [framedBy_singleton, ← k1]
    simp [readData, hf, hnot]
  · rw [k2]
    simp [hs]
  · have hd : (t.rx.drop 2).length = buffer.length := by
      rw [List.length_drop, hrxlen]; omega
    have hb : (readData env C buffer s).2.1 = store buffer (t.rx.drop 2) := by
      rw [k3]
      simp [readData, hf, hnot]
    rw [hb, store, List.take_of_length_le (by rw [hd]), hd, List.drop_length,
      List.append_nil]
  · rw [k5]
    simp [readData, hf, hnot]

/-! ### Every operation appends whole transactions only -/

theorem writeCommand_framed (command : Nat) (s : IT8951 ω) :
    Framed s (writeCommand env command s).2 := by
  by_cases hf : s.busyFlag_ = true
  · rw [writeCommand_busy env command s hf]; exact Framed.refl s
  · obtain ⟨t, k1, _⟩ := waitTransfer_run env 2
      { s with busyFlag_ := true
               txBuffer_ := (s.txBuffer_.set 0 cWriteCommand_).set 1 command }
    refine ⟨[t], ?_⟩
    rw [framedBy_singleton, ← k1]
    simp [writeCommand, hf]

theorem parameterFold_framed (ps : List Nat) :
    ∀ acc : Status × IT8951 ω, Framed acc.2 (ps.foldl (parameterStep env) acc).2 := by
  induction ps with
  | nil => intro acc; exact Framed.refl _
  | cons p ps ih =>
    intro acc
    obtain ⟨t, k1, _⟩ := waitTransfer_run env 2
      { acc.2 with txBuffer_ := acc.2.txBuffer_.set 1 p }
    have hstep : Framed acc.2 (parameterStep env acc p).2 :=
      ⟨[t], by rw [framedBy_singleton]; exact k1⟩
    rw [List.foldl_cons]
    exact hstep.trans (ih _)

theorem writeCommandParameters_framed (command : Nat) (ps : List Nat) (s : IT8951 ω) :
    Framed s (writeCommandParameters env command ps s).2 := by
  by_cases hf : s.busyFlag_ = true
  · rw [writeCommandParameters_busy env command ps s hf]; exact Framed.refl s
  · obtain ⟨t, k1, _⟩ := waitTransfer_run env 2
      { s with busyFlag_ := true
               txBuffer_ := (s.txBuffer_.set 0 cWriteCommand_).set 1 command }
    have h1 : Framed s (spiTransfer env 2 (waitUntilIdle env
        { s with busyFlag_ := true
                 txBuffer_ := (s.txBuffer_.set 0 cWriteCommand_).set 1 command })).2 :=
      ⟨[t], by rw [framedBy_singleton]; exact k1⟩
    obtain ⟨ts, hts⟩ := h1.trans (parameterFold_framed env ps
      (if (spiTransfer env 2 (waitUntilIdle env
          { s with busyFlag_ := true
                   txBuffer_ := (s.txBuffer_.set 0 cWriteCommand_).set 1 command })).1
        then Status.ok else Status.error,
       { (spiTransfer env 2 (waitUntilIdle env
          { s with busyFlag_ := true
                   txBuffer_ := (s.txBuffer_.set 0 cWriteCommand_).set 1 command })).2 with
         txBuffer_ := (spiTransfer env 2 (waitUntilIdle env
          { s with busyFlag_ := true
                   txBuffer_ := (s.txBuffer_.set 0 cWriteCommand_).set 1 command
                     })).2.txBuffer_.set 0 cWriteData_ }))
    refine ⟨ts, ?_⟩
    rw [← hts]
    simp [writeCommandParameters, hf]

theorem writeData_framed (C : Nat) (buffer : List Nat) (s : IT8951 ω) :
    Framed s (writeData env C buffer s).2 := by
  by_cases hf : s.busyFlag_ = true
  · rw [writeData_busy env C buffer s hf]; exact Framed.refl s
  · by_cases hc : C < buffer.length + 1
    · exact ⟨[], by simp [writeData, hf, hc, framedBy]⟩
    · obtain ⟨t, k1, _⟩ := waitTransfer_run env (buffer.length + 1)
        { s with busyFlag_ := true
                 txBuffer_ := (s.txBuffer_.set 0 cWriteData_).take 1
                   ++ store ((s.txBuffer_.set 0 cWriteData_).drop 1) buffer }
      refine ⟨[t], ?_⟩
      rw [framedBy_singleton, ← k1]
      simp [writeData, hf, hc]

theorem readData_framed (C : Nat) (buffer : List Nat) (s : IT8951 ω) :
    Framed s (readData env C buffer s).2.2 := by
  by_cases hf : s.busyFlag_ = true
  · rw [readData_busy env C buffer s hf]; exact Framed.refl s
  · by_cases hc : C < buffer.length + 2
    · exact ⟨[], by simp [readData, hf, hc, framedBy]⟩
    · obtain ⟨t, k1, _⟩ := waitTransfer_run env (buffer.length + 2)
        { s with busyFlag_ := true
                 txBuffer_ := (s.txBuffer_.set 0 cReadData_).set 1 0 }
      refine ⟨[t], ?_⟩
      rw [framedBy_singleton, ← k1]
      simp [readData, hf, hc]

end transactions

/-! ## `display` and `clear` -/

/-- C11: for every `x`, `y`, `w`, `h`, with the flag clear and the bus succeeding,
`display(x, y, w, h)` returns `ok` and performs exactly six bus transactions, each an
idle check followed by one transfer of 2 words in each direction, whose outgoing
words are in order `[0x6000, 0x0034]`, `[0x0000, x]`, `[0x0000, y]`, `[0x0000, w]`,
`[0x0000, h]`, `[0x0000, 0x0002]`; `clear(x, y, w, h)` does the same except that the
last parameter is `0x0000`. -/
theorem display_clear_transfers {ω : Type} (env : Env ω) (C x y w h : Nat) (s : IT8951 ω)
    (hf : s.busyFlag_ = false) (hw : WellSized C s) (hb : BusSucceeds env) :
    ((display env x y w h s).1 = Status.ok ∧
      ∃ ts : List Transaction,
        (display env x y w h s).2.trace = s.trace ++ framedBy ts ∧
        ts.map Transaction.tx = [[0x6000, 0x0034], [0x0000, x], [0x0000, y], [0x0000, w],
          [0x0000, h], [0x0000, 0x0002]] ∧
        ∀ t ∈ ts, t.rx.length = 2) ∧
    ((clear env x y w h s).1 = Status.ok ∧
      ∃ ts : List Transaction,
        (clear env x y w h s).2.trace = s.trace ++ framedBy ts ∧
        ts.map Transaction.tx = [[0x6000, 0x0034], [0x0000, x], [0x0000, y], [0x0000, w],
          [0x0000, h], [0x0000, 0x0000]] ∧
        ∀ t ∈ ts, t.rx.length = 2) := by
  constructor
  · obtain ⟨ts, k1, k2, k3, _⟩ := writeCommandParameters_run env C cDisplayArea_
      [x, y, w, h, cGrayscale_] s hf hw
    exact ⟨(writeCommandParameters_spec env C cDisplayArea_ [x, y, w, h, cGrayscale_] s
      hf hw).2.2.2 hb, ts, k1, k2, k3⟩
  · obtain ⟨ts, k1, k2, k3, _⟩ := writeCommandParameters_run env C cDisplayArea_
      [x, y, w, h, cClear_] s hf hw
    exact ⟨(writeCommandParameters_spec env C cDisplayArea_ [x, y, w, h, cClear_] s
      hf hw).2.2.2 hb, ts, k1, k2, k3⟩

/-- The scenario of the specification: `display(0, 0, 100, 100)` sends the command
`0x0034` and the parameters 0, 0, 100, 100, `0x0002`. -/
theorem display_clear_transfers_witness :
    (display (fakeEnv (fun _ => true) (fun _ => []) true) 0 0 100 100
      (IT8951.init 4 0)).1 = Status.ok ∧
    transfers (display (fakeEnv (fun _ => true) (fun _ => []) true) 0 0 100 100
        (IT8951.init 4 0)).2.trace
      = [[0x6000, 0x0034], [0x0000, 0], [0x0000, 0], [0x0000, 100], [0x0000, 100],
          [0x0000, 0x0002]] := by
  have h := (display_clear_transfers (fakeEnv (fun _ => true) (fun _ => []) true) 4
    0 0 100 100 (IT8951.init 4 0) rfl (by simp [WellSized, IT8951.init])
    (fun _ _ _ => rfl)).1
  obtain ⟨h1, ts, h2, h3, _⟩ := h
  refine ⟨h1, ?_⟩
  rw [h2, transfers_append, transfers_framedBy, h3]
  rfl

/-! ## Short circuit of the multi-step operations -/

/-- C12: in each multi-step operation, for every behaviour of the bus and every
state at entry: as soon as one sub-step returns a status other than `ok`, the
operation returns exactly that status and the state that sub-step left, so that no
bus transfer of a later sub-step is performed. The sub-steps are: the two
`writeRegister`, `writeCommand(LOAD_IMAGE_AREA, …)` and `writeData` of `writeImage`
(the last sub-step, `writeCommand(END_LOAD_IMAGE)`, gives the result itself); the
command and the `readData` of `getDeviceInfo`, of `getVcom` and of `readRegister`;
`isDisplayReady` returns the status and the state of its `readRegister`. -/
theorem multi_step_short_circuit {ω : Type} (env : Env ω) (C : Nat) (s : IT8951 ω) :
    (∀ a image x y w h,
      ((writeRegister env 0x020A (a / 2 ^ 16 % 65536) s).1 ≠ Status.ok →
        writeImage env C a image x y w h s
          = writeRegister env 0x020A (a / 2 ^ 16 % 65536) s) ∧
      ((writeRegister env 0x020A (a / 2 ^ 16 % 65536) s).1 = Status.ok →
        (writeRegister env 0x0208 (a % 65536)
          (writeRegister env 0x020A (a / 2 ^ 16 % 65536) s).2).1 ≠ Status.ok →
        writeImage env C a image x y w h s
          = writeRegister env 0x0208 (a % 65536)
              (writeRegister env 0x020A (a / 2 ^ 16 % 65536) s).2) ∧
      ((writeRegister env 0x020A (a / 2 ^ 16 % 65536) s).1 = Status.ok →
        (writeRegister env 0x0208 (a % 65536)
          (writeRegister env 0x020A (a / 2 ^ 16 % 65536) s).2).1 = Status.ok →
        (writeCommandParameters env cLoadImageArea_ [0x0020, x, y, w, h]
          (writeRegister env 0x0208 (a % 65536)
            (writeRegister env 0x020A (a / 2 ^ 16 % 65536) s).2).2).1 ≠ Status.ok →
        writeImage env C a image x y w h s
          = writeCommandParameters env cLoadImageArea_ [0x0020, x, y, w, h]
              (writeRegister env 0x0208 (a % 65536)
                (writeRegister env 0x020A (a / 2 ^ 16 % 65536) s).2).2) ∧
      ((writeRegister env 0x020A (a / 2 ^ 16 % 65536) s).1 = Status.ok →
        (writeRegister env 0x0208 (a % 65536)
          (writeRegister env 0x020A (a / 2 ^ 16 % 65536) s).2).1 = Status.ok →
        (writeCommandParameters env cLoadImageArea_ [0x0020, x, y, w, h]
          (writeRegister env 0x0208 (a % 65536)
            (writeRegister env 0x020A (a / 2 ^ 16 % 65536) s).2).2).1 = Status.ok →
        (writeData env C image
          (writeCommandParameters env cLoadImageArea_ [0x0020, x, y, w, h]
            (writeRegister env 0x0208 (a % 65536)
              (writeRegister env 0x020A (a / 2 ^ 16 % 65536) s).2).2).2).1 ≠ Status.ok →
        writeImage env C a image x y w h s
          = writeData env C image
              (writeCommandParameters env cLoadImageArea_ [0x0020, x, y, w, h]
                (writeRegister env 0x0208 (a % 65536)
                  (writeRegister env 0x020A (a / 2 ^ 16 % 65536) s).2).2).2)) ∧
    (∀ beyond,
      ((writeCommand env cGetDeviceInfo_ s).1 ≠ Status.ok →
        getDeviceInfo env C beyond s
          = ((writeCommand env cGetDeviceInfo_ s).1, DeviceInfo.empty,
              (writeCommand env cGetDeviceInfo_ s).2)) ∧
      ((writeCommand env cGetDeviceInfo_ s).1 = Status.ok →
        (readData env C (List.replicate 20 0)
          (writeCommand env cGetDeviceInfo_ s).2).1 ≠ Status.ok →
        getDeviceInfo env C beyond s
          = ((readData env C (List.replicate 20 0)
                (writeCommand env cGetDeviceInfo_ s).2).1, DeviceInfo.empty,
              (readData env C (List.replicate 20 0)
                (writeCommand env cGetDeviceInfo_ s).2).2.2))) ∧
    (((writeCommandParameters env cSetVcom_ [0x0000] s).1 ≠ Status.ok →
        getVcom env C s
          = ((writeCommandParameters env cSetVcom_ [0x0000] s).1, F32.ofNat 0,
              (writeCommandParameters env cSetVcom_ [0x0000] s).2)) ∧
      ((writeCommandParameters env cSetVcom_ [0x0000] s).1 = Status.ok →
        (readData env C [0] (writeCommandParameters env cSetVcom_ [0x0000] s).2).1
          ≠ Status.ok →
        getVcom env C s
          = ((readData env C [0] (writeCommandParameters env cSetVcom_ [0x0000] s).2).1,
              F32.ofNat 0,
              (readData env C [0]
                (writeCommandParameters env cSetVcom_ [0x0000] s).2).2.2))) ∧
    (∀ address,
      ((writeCommandParameters env cReadRegister_ [address] s).1 ≠ Status.ok →
        readRegister env C address s
          = ((writeCommandParameters env cReadRegister_ [address] s).1, 0,
              (writeCommandParameters env cReadRegister_ [address] s).2)) ∧
      ((writeCommandParameters env cReadRegister_ [address] s).1 = Status.ok →
        (readData env C [0] (writeCommandParameters env cReadRegister_ [address] s).2).1
          ≠ Status.ok →
        readRegister env C address s
          = ((readData env C [0]
                (writeCommandParameters env cReadRegister_ [address] s).2).1, 0,
              (readData env C [0]
                (writeCommandParameters env cReadRegister_ [address] s).2).2.2))) ∧
    ((isDisplayReady env C s).1 = (readRegister env C 0x1224 s).1 ∧
      (isDisplayReady env C s).2.2 = (readRegister env C 0x1224 s).2.2) := by
  refine ⟨?_, ?_, ?_, ?_, ?_⟩
  · intro a image x y w h
    refine ⟨?_, ?_, ?_, ?_⟩
    · intro h1
      simp only [writeImage]
      rw [if_pos h1]
    · intro h1 h2
      simp only [writeImage]
      rw [if_neg (not_not.mpr h1), if_pos h2]
    · intro h1 h2 h3
      simp only [writeImage]
      rw [if_neg (not_not.mpr h1), if_neg (not_not.mpr h2), if_pos h3]
    · intro h1 h2 h3 h4
      simp only [writeImage]
      rw [if_neg (not_not.mpr h1), if_neg (not_not.mpr h2), if_neg (not_not.mpr h3),
        if_pos h4]
  · intro beyond
    refine ⟨?_, ?_⟩
    · intro h1
      simp only [getDeviceInfo]
      rw [if_pos h1]
    · intro h1 h2
      simp only [getDeviceInfo]
      rw [if_neg (not_not.mpr h1), if_pos h2]
  · refine ⟨?_, ?_⟩
    · intro h1
      simp only [getVcom]
      rw [if_pos h1]
    · intro h1 h2
      simp only [getVcom]
      rw [if_neg (not_not.mpr h1), if_pos h2]
  · intro address
    refine ⟨?_, ?_⟩
    · intro h1
      simp only [readRegister]
      rw [if_pos h1]
    · intro h1 h2
      simp only [readRegister]
      rw [if_neg (not_not.mpr h1), if_pos h2]
  · exact ⟨rfl, rfl⟩

/-- A bus failure in the command transfer of the second register write of
`writeImage`: the status is `error`, the three transfers of that register write are
still made, and nothing of `LOAD_IMAGE_AREA`, of the data or of `END_LOAD_IMAGE` is
sent. -/
theorem multi_step_short_circuit_witness :
    (writeImage (fakeEnv (fun i => decide (i ≠ 3)) (fun _ => []) true) 4 0x00012345
      [7, 8, 9] 1 2 3 4 (IT8951.init 4 0)).1 = Status.error ∧
    transfers (writeImage (fakeEnv (fun i => decide (i ≠ 3)) (fun _ => []) true) 4
        0x00012345 [7, 8, 9] 1 2 3 4 (IT8951.init 4 0)).2.trace
      = [[0x6000, 0x0011], [0x0000, 0x020A], [0x0000, 0x0001],
         [0x6000, 0x0011], [0x0000, 0x0208], [0x0000, 0x2345]] := by
  have h := ((multi_step_short_circuit (fakeEnv (fun i => decide (i ≠ 3)) (fun _ => []) true)
    4 (IT8951.init 4 0)).1 0x00012345 [7, 8, 9] 1 2 3 4).2.1 (by decide) (by decide)
  rw [h]
  decide

/-! ## The data primitives -/

/-- C13: for every read length `L` (the length of the caller's buffer) with
`L + 2 ≤ C`, with the flag clear and the bus succeeding, `readData` returns `ok` and
performs exactly one bus transaction: an idle check and one transfer of exactly
`L + 2` words in each direction whose first two outgoing words are `0x1000` and
`0x0000`; the caller's buffer receives exactly the incoming words at positions 2 to
`L + 1`, in order. -/
theorem readData_transfer {ω : Type} (env : Env ω) (C : Nat) (buffer : List Nat)
    (s : IT8951 ω) (hf : s.busyFlag_ = false) (hw : WellSized C s)
    (hfit : buffer.length + 2 ≤ C) (hb : BusSucceeds env) :
    (readData env C buffer s).1 = Status.ok ∧
    ∃ t : Transaction,
      (readData env C buffer s).2.2.trace = s.trace ++ framedBy [t] ∧
      t.tx.length = buffer.length + 2 ∧
      t.tx.take 2 = [0x1000, 0x0000] ∧
      t.rx.length = buffer.length + 2 ∧
      t.success = true ∧
      (readData env C buffer s).2.1 = t.rx.drop 2 ∧
      (readData env C buffer s).2.1.length = buffer.length := by
  have hok := (readData_spec env C buffer s hf hw hfit).2.2.2.2 hb
  obtain ⟨t, k1, k2, k3, k4, k5⟩ := readData_run env C buffer s hf hw hfit
  refine ⟨hok, t, k1, ?_, ?_, k3, ?_, k4, ?_⟩
  · rw [k2]
    simp only [List.length_cons, List.length_take, List.length_drop, hw.2.1]
    omega
  · rw [k2]; rfl
  · rw [hok] at k5
    cases hs : t.success
    · rw [hs] at k5; simp at k5
    · rfl
  · rw [k4, List.length_drop, k3]; omega

/-- A 2-word read with a capacity of 4: the bus delivers `[9, 8, 7, 6]` and the
caller receives `[7, 6]`. -/
theorem readData_transfer_witness :
    (readData (fakeEnv (fun _ => true) (fun _ => [9, 8, 7, 6]) true) 4 [0, 0]
      (IT8951.init 4 0)).1 = Status.ok ∧
    (readData (fakeEnv (fun _ => true) (fun _ => [9, 8, 7, 6]) true) 4 [0, 0]
      (IT8951.init 4 0)).2.1 = [7, 6] ∧
    (readData (fakeEnv (fun _ => true) (fun _ => [9, 8, 7, 6]) true) 4 [0, 0]
      (IT8951.init 4 0)).2.2.trace
      = [Event.pinRead true, Event.transfer [0x1000, 0, 0, 0] [9, 8, 7, 6] true] :=
  ⟨(readData_transfer (fakeEnv (fun _ => true) (fun _ => [9, 8, 7, 6]) true) 4 [0, 0]
      (IT8951.init 4 0) rfl (by simp [WellSized, IT8951.init]) (by decide)
      (fun _ _ _ => rfl)).1,
   by decide, by decide⟩

/-- C14: for every payload `p` with `len(p) + 1 ≤ C`, with the flag clear and the
bus succeeding, `writeData(p)` returns `ok` and performs exactly one bus
transaction: an idle check and one transfer of exactly `len(p) + 1` words in each
direction whose outgoing words are `0x0000` followed by `p` in order. The caller's
payload is only read: `writeData` has no output for it. -/
theorem writeData_transfer {ω : Type} (env : Env ω) (C : Nat) (buffer : List Nat)
    (s : IT8951 ω) (hf : s.busyFlag_ = false) (hw : WellSized C s)
    (hfit : buffer.length + 1 ≤ C) (hb : BusSucceeds env) :
    (writeData env C buffer s).1 = Status.ok ∧
    ∃ t : Transaction,
      (writeData env C buffer s).2.trace = s.trace ++ framedBy [t] ∧
      t.tx = 0x0000 :: buffer ∧
      t.tx.length = buffer.length + 1 ∧
      t.rx.length = buffer.length + 1 ∧
      t.success = true := by
  have hok := (writeData_spec env C buffer s hf hw hfit).2.2.2 hb
  obtain ⟨t, k1, k2, k3, k5⟩ := writeData_run env C buffer s hf hw hfit
  refine ⟨hok, t, k1, k2, by rw [k2]; rfl, k3, ?_⟩
  rw [hok] at k5
  cases hs : t.success
  · rw [hs] at k5; simp at k5
  · rfl

/-- A 3-word payload with a capacity of 4: one transfer of `[0, 7, 8, 9]`. -/
theorem writeData_transfer_witness :
    (writeData (fakeEnv (fun _ => true) (fun _ => []) true) 4 [7, 8, 9]
      (IT8951.init 4 0)).1 = Status.ok ∧
    (writeData (fakeEnv (fun _ => true) (fun _ => []) true) 4 [7, 8, 9]
      (IT8951.init 4 0)).2.trace
      = [Event.pinRead true, Event.transfer [0x0000, 7, 8, 9] [0, 0, 0, 0] true] :=
  ⟨(writeData_transfer (fakeEnv (fun _ => true) (fun _ => []) true) 4 [7, 8, 9]
      (IT8951.init 4 0) rfl (by simp [WellSized, IT8951.init]) (by decide)
      (fun _ _ _ => rfl)).1,
   by decide⟩

/-! ## Register access -/

theorem headD_drop_two (l : List Nat) : (l.drop 2).headD 0 = l.getD 2 0 := by
  match l with
  | [] => rfl
  | [_] => rfl
  | [_, _] => rfl
  | _ :: _ :: _ :: _ => rfl

/-- C15: for every address and value, with the flag clear, `C ≥ 3` and the bus
succeeding: `writeRegister(address, value)` returns `ok` and performs exactly the
three 2-word transactions `[0x6000, 0x0011]`, `[0x0000, address]`,
`[0x0000, value]`; `readRegister(address)` performs the two 2-word transactions
`[0x6000, 0x0010]`, `[0x0000, address]` and then one 3-word read transaction whose
outgoing words start with `0x1000`, `0x0000`, and returns (`ok`, `v`) where `v` is the
third incoming word of that read transfer. -/
theorem register_access {ω : Type} (env : Env ω) (C address value : Nat) (s : IT8951 ω)
    (hf : s.busyFlag_ = false) (hw : WellSized C s) (hC : 3 ≤ C) (hb : BusSucceeds env) :
    ((writeRegister env address value s).1 = Status.ok ∧
      ∃ ts : List Transaction,
        (writeRegister env address value s).2.trace = s.trace ++ framedBy ts ∧
        ts.map Transaction.tx = [[0x6000, 0x0011], [0x0000, address], [0x0000, value]] ∧
        ∀ t ∈ ts, t.rx.length = 2) ∧
    ((readRegister env C address s).1 = Status.ok ∧
      ∃ (ts : List Transaction) (t : Transaction),
        (readRegister env C address s).2.2.trace = s.trace ++ framedBy (ts ++ [t]) ∧
        ts.map Transaction.tx = [[0x6000, 0x0010], [0x0000, address]] ∧
        (∀ u ∈ ts, u.rx.length = 2) ∧
        t.tx.length = 3 ∧ t.tx.take 2 = [0x1000, 0x0000] ∧ t.rx.length = 3 ∧
        (readRegister env C address s).2.1 = t.rx.getD 2 0) := by
  constructor
  · obtain ⟨ts, k1, k2, k3, _⟩ := writeCommandParameters_run env C cWriteRegister_
      [address, value] s hf hw
    exact ⟨(writeCommandParameters_spec env C cWriteRegister_ [address, value] s
      hf hw).2.2.2 hb, ts, k1, k2, k3⟩
  · obtain ⟨f1, w1, _, o1⟩ := writeCommandParameters_spec env C cReadRegister_ [address] s
      hf hw
    obtain ⟨ts, k1, k2, k3, _⟩ := writeCommandParameters_run env C cReadRegister_
      [address] s hf hw
    have hfit : ([0] : List Nat).length + 2 ≤ C := by simpa using hC
    obtain ⟨d1, t, r1, r2, r3, r4, _, r6, _⟩ := readData_transfer env C [0] _ f1 w1 hfit hb
    have e1 := o1 hb
    have hrun : readRegister env C address s = (Status.ok,
        (readData env C [0]
          (writeCommandParameters env cReadRegister_ [address] s).2).2.1.headD 0,
        (readData env C [0]
          (writeCommandParameters env cReadRegister_ [address] s).2).2.2) := by
      unfold readRegister
      simp only [e1, d1, ne_eq, not_true_eq_false, if_false]
    rw [hrun]
    refine ⟨rfl, ts, t, ?_, k2, k3, r2, r3, r4, ?_⟩
    · show (readData env C [0]
        (writeCommandParameters env cReadRegister_ [address] s).2).2.2.trace = _
      rw [r1, k1, framedBy_append, List.append_assoc]
    · show (readData env C [0]
        (writeCommandParameters env cReadRegister_ [address] s).2).2.1.headD 0 = _
      rw [r6, headD_drop_two]

/-- Reading the register `0x1224` when the bus delivers `[0, 0, 42]`: three
transfers and the value 42. -/
theorem register_access_witness :
    (readRegister (blockEnv [42]) 3 0x1224 (IT8951.init 3 0)).1 = Status.ok ∧
    (readRegister (blockEnv [42]) 3 0x1224 (IT8951.init 3 0)).2.1 = 42 ∧
    transfers (readRegister (blockEnv [42]) 3 0x1224 (IT8951.init 3 0)).2.2.trace
      = [[0x6000, 0x0010], [0x0000, 0x1224], [0x1000, 0x0000, 0]] ∧
    transfers (writeRegister (blockEnv [42]) 0x0004 0x0001 (IT8951.init 3 0)).2.trace
      = [[0x6000, 0x0011], [0x0000, 0x0004], [0x0000, 0x0001]] :=
  ⟨(register_access (blockEnv [42]) 3 0x1224 0 (IT8951.init 3 0) rfl
      (by simp [WellSized, IT8951.init]) (by decide) (fun _ _ _ => rfl)).2.1,
   by decide, by decide, by decide⟩

/-! ## The power-state commands -/

/-- C17: with the flag clear, `wakeUp`, `standby` and `sleep` each perform exactly
one bus transaction: an idle check and one transfer of exactly 2 words in each
direction whose outgoing words are `[0x6000, 0x0001]`, `[0x6000, 0x0002]` and
`[0x6000, 0x0003]` respectively; each returns `ok` if the bus reports success for
that transfer and `error` if it reports failure. -/
theorem power_commands {ω : Type} (env : Env ω) (C : Nat) (s : IT8951 ω)
    (hf : s.busyFlag_ = false) (hw : WellSized C s) :
    (∃ t : Transaction,
      (wakeUp env s).2.trace = s.trace ++ framedBy [t] ∧
      t.tx = [0x6000, 0x0001] ∧ t.rx.length = 2 ∧
      (wakeUp env s).1 = (if t.success then Status.ok else Status.error)) ∧
    (∃ t : Transaction,
      (standby env s).2.trace = s.trace ++ framedBy [t] ∧
      t.tx = [0x6000, 0x0002] ∧ t.rx.length = 2 ∧
      (standby env s).1 = (if t.success then Status.ok else Status.error)) ∧
    (∃ t : Transaction,
      (sleep env s).2.trace = s.trace ++ framedBy [t] ∧
      t.tx = [0x6000, 0x0003] ∧ t.rx.length = 2 ∧
      (sleep env s).1 = (if t.success then Status.ok else Status.error)) :=
  ⟨writeCommand_run env C cWakeUp_ s hf hw,
   writeCommand_run env C cStandby_ s hf hw,
   writeCommand_run env C cSleep_ s hf hw⟩

/-- On a fresh driver `wakeUp` gives `ok` when the bus succeeds and `sleep` gives
`error` when the bus fails; each makes exactly one 2-word transfer. -/
theorem power_commands_witness :
    (wakeUp (fakeEnv (fun _ => true) (fun _ => []) true) (IT8951.init 2 0)).1
      = Status.ok ∧
    (wakeUp (fakeEnv (fun _ => true) (fun _ => []) true) (IT8951.init 2 0)).2.trace
      = [Event.pinRead true, Event.transfer [0x6000, 0x0001] [0, 0] true] ∧
    (sleep (fakeEnv (fun _ => false) (fun _ => []) true) (IT8951.init 2 0)).1
      = Status.error ∧
    (sleep (fakeEnv (fun _ => false) (fun _ => []) true) (IT8951.init 2 0)).2.trace
      = [Event.pinRead true, Event.transfer [0x6000, 0x0003] [0, 0] false] ∧
    (∃ t : Transaction,
      (standby (fakeEnv (fun _ => true) (fun _ => []) true) (IT8951.init 2 0)).2.trace
        = (IT8951.init 2 (0 : Nat)).trace ++ framedBy [t] ∧
      t.tx = [0x6000, 0x0002] ∧ t.rx.length = 2 ∧
      (standby (fakeEnv (fun _ => true) (fun _ => []) true) (IT8951.init 2 0)).1
        = (if t.success then Status.ok else Status.error)) :=
  ⟨by decide, by decide, by decide, by decide,
   (power_commands (fakeEnv (fun _ => true) (fun _ => []) true) 2 (IT8951.init 2 0) rfl
      (by simp [WellSized, IT8951.init])).2.1⟩

/-! ## The ready flag on a failed poll -/

/-- C18: whenever `isDisplayReady` returns a status other than `ok` (whatever the
state at entry, the capacity and the behaviour of the bus), the ready flag it
returns is true. -/
theorem isDisplayReady_failed_ready {ω : Type} (env : Env ω) (C : Nat) (s : IT8951 ω)
    (h : (isDisplayReady env C s).1 ≠ Status.ok) :
    (isDisplayReady env C s).2.1 = true := by
  simp only [isDisplayReady, readRegister] at h ⊢
  split_ifs at h ⊢ with h1 h2
  · simp
  · simp
  · exact absurd rfl h

/-- Three failed polls report ready: the flag held (`busy`), the command transfer
failing (`error`), and a capacity of 2 words, too small for the read (`error`). -/
theorem isDisplayReady_failed_ready_witness :
    (isDisplayReady (blockEnv [5]) 3 { IT8951.init 3 (0 : Nat) with busyFlag_ := true }).1
      = Status.busy ∧
    (isDisplayReady (blockEnv [5]) 3
      { IT8951.init 3 (0 : Nat) with busyFlag_ := true }).2.1 = true ∧
    (isDisplayReady (fakeEnv (fun _ => false) (fun _ => [0, 0, 5]) true) 3
      (IT8951.init 3 0)).2.1 = true ∧
    (isDisplayReady (blockEnv [5]) 2 (IT8951.init 2 0)).2.1 = true :=
  ⟨by decide,
   isDisplayReady_failed_ready (blockEnv [5]) 3
     { IT8951.init 3 (0 : Nat) with busyFlag_ := true } (by decide),
   isDisplayReady_failed_ready (fakeEnv (fun _ => false) (fun _ => [0, 0, 5]) true) 3
     (IT8951.init 3 0) (by decide),
   isDisplayReady_failed_ready (blockEnv [5]) 2 (IT8951.init 2 0) (by decide)⟩

/-! ## Idle check before every transfer -/

theorem readRegister_framed {ω : Type} (env : Env ω) (C address : Nat) (s : IT8951 ω) :
    Framed s (readRegister env C address s).2.2 := by
  have h1 := writeCommandParameters_framed env cReadRegister_ [address] s
  have h2 := readData_framed env C [0]
    (writeCommandParameters env cReadRegister_ [address] s).2
  simp only [readRegister]
  split_ifs
  · exact h1
  · exact h1.trans h2
  · exact h1.trans h2

theorem getDeviceInfo_framed {ω : Type} (env : Env ω) (C : Nat) (beyond : List Nat)
    (s : IT8951 ω) : Framed s (getDeviceInfo env C beyond s).2.2 := by
  have h1 := writeCommand_framed env cGetDeviceInfo_ s
  have h2 := readData_framed env C (List.replicate 20 0)
    (writeCommand env cGetDeviceInfo_ s).2
  simp only [getDeviceInfo]
  split_ifs
  · exact h1
  · exact h1.trans h2
  · exact h1.trans h2

theorem getVcom_framed {ω : Type} (env : Env ω) (C : Nat) (s : IT8951 ω) :
    Framed s (getVcom env C s).2.2 := by
  have h1 := writeCommandParameters_framed env cSetVcom_ [0x0000] s
  have h2 := readData_framed env C [0]
    (writeCommandParameters env cSetVcom_ [0x0000] s).2
  simp only [getVcom]
  split_ifs
  · exact h1
  · exact h1.trans h2
  · exact h1.trans h2

theorem setVcom_framed {ω : Type} (env : Env ω) (v : F32) (s : IT8951 ω) :
    Framed s (setVcom env v s).2 := by
  simp only [setVcom]
  split_ifs
  · exact Framed.refl s
  · exact writeCommandParameters_framed env _ _ s

theorem writeImage_framed {ω : Type} (env : Env ω) (C a : Nat) (image : List Nat)
    (x y w h : Nat) (s : IT8951 ω) : Framed s (writeImage env C a image x y w h s).2 := by
  have h1 := writeCommandParameters_framed env cWriteRegister_
    [(0x208 + 2) % 65536, a / 2 ^ 16 % 65536] s
  have h2 := writeCommandParameters_framed env cWriteRegister_ [0x208, a % 65536]
    (writeCommandParameters env cWriteRegister_
      [(0x208 + 2) % 65536, a / 2 ^ 16 % 65536] s).2
  have h3 := writeCommandParameters_framed env cLoadImageArea_ [0x0020, x, y, w, h]
    (writeCommandParameters env cWriteRegister_ [0x208, a % 65536]
      (writeCommandParameters env cWriteRegister_
        [(0x208 + 2) % 65536, a / 2 ^ 16 % 65536] s).2).2
  have h4 := writeData_framed env C image
    (writeCommandParameters env cLoadImageArea_ [0x0020, x, y, w, h]
      (writeCommandParameters env cWriteRegister_ [0x208, a % 65536]
        (writeCommandParameters env cWriteRegister_
          [(0x208 + 2) % 65536, a / 2 ^ 16 % 65536] s).2).2).2
  have h5 := writeCommand_framed env cEndLoadImage_
    (writeData env C image
      (writeCommandParameters env cLoadImageArea_ [0x0020, x, y, w, h]
        (writeCommandParameters env cWriteRegister_ [0x208, a % 65536]
          (writeCommandParameters env cWriteRegister_
            [(0x208 + 2) % 65536, a / 2 ^ 16 % 65536] s).2).2).2).2
  simp only [writeImage, writeRegister]
  split_ifs
  · exact h1
  · exact h1.trans h2
  · exact (h1.trans h2).trans h3
  · exact ((h1.trans h2).trans h3).trans h4
  · exact (((h1.trans h2).trans h3).trans h4).trans h5

/-- C16: in the event trace of every framer primitive and of every public
operation, for every state at entry and every behaviour of the bus and of the busy
line, the events added are a sequence of transactions, each being one invocation of
`waitUntilIdle` followed at once by exactly one bus transfer: every transfer is
preceded by its own invocation, with no other transfer in between. And when the
busy line reads idle at the first sample, `waitUntilIdle` returns at once: it
records that one sample only, registers no edge notification, does not suspend, and
leaves the collaborators in the state the sample left. -/
theorem wait_before_every_transfer {ω : Type} (env : Env ω) (C : Nat) (s : IT8951 ω) :
    (∀ command, Framed s (writeCommand env command s).2) ∧
    (∀ command parameters, Framed s (writeCommandParameters env command parameters s).2) ∧
    (∀ buffer, Framed s (writeData env C buffer s).2) ∧
    (∀ buffer, Framed s (readData env C buffer s).2.2) ∧
    (∀ address value, Framed s (writeRegister env address value s).2) ∧
    (∀ address, Framed s (readRegister env C address s).2.2) ∧
    Framed s (wakeUp env s).2 ∧
    Framed s (standby env s).2 ∧
    Framed s (sleep env s).2 ∧
    (∀ beyond, Framed s (getDeviceInfo env C beyond s).2.2) ∧
    (∀ v, Framed s (setVcom env v s).2) ∧
    Framed s (getVcom env C s).2.2 ∧
    Framed s (enableParameterPack env s).2 ∧
    (∀ a image x y w h, Framed s (writeImage env C a image x y w h s).2) ∧
    Framed s (isDisplayReady env C s).2.2 ∧
    (∀ x y w h, Framed s (display env x y w h s).2) ∧
    (∀ x y w h, Framed s (clear env x y w h s).2) ∧
    ((env.read s.world).1 = true →
      waitUntilIdle env s
        = { s with world := (env.read s.world).2
                   trace := s.trace ++ [Event.pinRead true] }) := by
  refine ⟨?_, ?_, ?_, ?_, ?_, ?_, ?_, ?_, ?_, ?_, ?_, ?_, ?_, ?_, ?_, ?_, ?_, ?_⟩
  · exact fun command => writeCommand_framed env command s
  · exact fun command ps => writeCommandParameters_framed env command ps s
  · exact fun buffer => writeData_framed env C buffer s
  · exact fun buffer => readData_framed env C buffer s
  · exact fun address value => writeCommandParameters_framed env _ _ s
  · exact fun address => readRegister_framed env C address s
  · exact writeCommand_framed env _ s
  · exact writeCommand_framed env _ s
  · exact writeCommand_framed env _ s
  · exact fun beyond => getDeviceInfo_framed env C beyond s
  · exact fun v => setVcom_framed env v s
  · exact getVcom_framed env C s
  · exact writeCommandParameters_framed env _ _ s
  · exact fun a image x y w h => writeImage_framed env C a image x y w h s
  · exact readRegister_framed env C _ s
  · exact fun x y w h => writeCommandParameters_framed env _ _ s
  · exact fun x y w h => writeCommandParameters_framed env _ _ s
  · intro h
    simp only [waitUntilIdle, h, if_true]

/-- With an idle busy line `writeRegister` records one sample before each of its
three transfers; with a busy line that stays low at both samples `wakeUp` registers
the callback, suspends, and only then transfers. -/
theorem wait_before_every_transfer_witness :
    (writeRegister (fakeEnv (fun _ => true) (fun _ => []) true) 0x0004 0x0001
      (IT8951.init 2 0)).2.trace
      = [Event.pinRead true, Event.transfer [0x6000, 0x0011] [0, 0] true,
         Event.pinRead true, Event.transfer [0x0000, 0x0004] [0, 0] true,
         Event.pinRead true, Event.transfer [0x0000, 0x0001] [0, 0] true] ∧
    (wakeUp (fakeEnv (fun _ => true) (fun _ => []) false) (IT8951.init 2 0)).2.trace
      = [Event.pinRead false, Event.setCallback true, Event.pinRead false, Event.acquire,
         Event.setCallback false, Event.transfer [0x6000, 0x0001] [0, 0] true] ∧
    Framed (IT8951.init 2 (0 : Nat))
      (wakeUp (fakeEnv (fun _ => true) (fun _ => []) false) (IT8951.init 2 0)).2 ∧
    (waitUntilIdle (fakeEnv (fun _ => true) (fun _ => []) true) (IT8951.init 2 0)).trace
      = [Event.pinRead true] :=
  ⟨by decide, by decide,
   (wait_before_every_transfer (fakeEnv (fun _ => true) (fun _ => []) false) 2
      (IT8951.init 2 0)).2.2.2.2.2.2.1,
   by rw [(wait_before_every_transfer (fakeEnv (fun _ => true) (fun _ => []) true) 2
      (IT8951.init 2 0)).2.2.2.2.2.2.2.2.2.2.2.2.2.2.2.2.2 rfl]; rfl⟩

/-! ## An oversize image -/

theorem writeData_oversize {ω : Type} (env : Env ω) (C : Nat) (buffer : List Nat)
    (s : IT8951 ω) (hf : s.busyFlag_ = false) (hover : C < buffer.length + 1) :
    writeData env C buffer s = (Status.error, { s with busyFlag_ := true }) := by
  simp [writeData, hf, hover]

/-- C19: for every pixel payload `p` with `len(p) + 1 > C`, with the flag clear and
the bus succeeding, `writeImage` returns `error`, and it does so only after exactly
twelve bus transactions: the two register writes of the address and the command
`0x0021` with its five parameters. No data transfer is made and the command `0x0022`
is never sent. -/
theorem writeImage_oversize {ω : Type} (env : Env ω) (C a : Nat) (image : List Nat)
    (x y w h : Nat) (s : IT8951 ω) (hf : s.busyFlag_ = false) (hw : WellSized C s)
    (ha : a < 2 ^ 32) (hover : C < image.length + 1) (hb : BusSucceeds env) :
    (writeImage env C a image x y w h s).1 = Status.error ∧
    ∃ ts : List Transaction,
      (writeImage env C a image x y w h s).2.trace = s.trace ++ framedBy ts ∧
      ts.length = 12 ∧
      ts.map Transaction.tx
        = [[0x6000, 0x0011], [0x0000, 0x020A], [0x0000, a / 65536],
           [0x6000, 0x0011], [0x0000, 0x0208], [0x0000, a % 65536],
           [0x6000, 0x0021], [0x0000, 0x0020], [0x0000, x], [0x0000, y], [0x0000, w],
           [0x0000, h]] := by
  have ha1 : a / 2 ^ 16 % 65536 = a / 65536 := by omega
  obtain ⟨f1, w1, _, o1⟩ := writeCommandParameters_spec env C cWriteRegister_
    [(0x208 + 2) % 65536, a / 2 ^ 16 % 65536] s hf hw
  obtain ⟨ts1, p1, q1, _⟩ := writeCommandParameters_run env C cWriteRegister_
    [(0x208 + 2) % 65536, a / 2 ^ 16 % 65536] s hf hw
  obtain ⟨f2, w2, _, o2⟩ := writeCommandParameters_spec env C cWriteRegister_
    [0x208, a % 65536] _ f1 w1
  obtain ⟨ts2, p2, q2, _⟩ := writeCommandParameters_run env C cWriteRegister_
    [0x208, a % 65536] _ f1 w1
  obtain ⟨f3, _, _, o3⟩ := writeCommandParameters_spec env C cLoadImageArea_
    [0x0020, x, y, w, h] _ f2 w2
  obtain ⟨ts3, p3, q3, _⟩ := writeCommandParameters_run env C cLoadImageArea_
    [0x0020, x, y, w, h] _ f2 w2
  have e1 := o1 hb
  have e2 := o2 hb
  have e3 := o3 hb
  have e4 := writeData_oversize env C image _ f3 hover
  have hrun : writeImage env C a image x y w h s
      = writeData env C image
          (writeCommandParameters env cLoadImageArea_ [0x0020, x, y, w, h]
            (writeCommandParameters env cWriteRegister_ [0x208, a % 65536]
              (writeCommandParameters env cWriteRegister_
                [(0x208 + 2) % 65536, a / 2 ^ 16 % 65536] s).2).2).2 := by
    unfold writeImage writeRegister
    simp only [e1, e2, e3, ne_eq, not_true_eq_false, if_false]
    rw [if_pos (by rw [e4]; exact fun hne => Status.noConfusion hne)]
  rw [hrun, e4]
  have hmap : (ts1 ++ ts2 ++ ts3).map Transaction.tx
      = [[0x6000, 0x0011], [0x0000, 0x020A], [0x0000, a / 65536],
         [0x6000, 0x0011], [0x0000, 0x0208], [0x0000, a % 65536],
         [0x6000, 0x0021], [0x0000, 0x0020], [0x0000, x], [0x0000, y], [0x0000, w],
         [0x0000, h]] := by
    rw [List.map_append, List.map_append, q1, q2, q3, ha1]
    simp [cWriteCommand_, cWriteData_, cWriteRegister_, cLoadImageArea_]
  refine ⟨rfl, ts1 ++ ts2 ++ ts3, ?_, ?_, hmap⟩
  · show (writeCommandParameters env cLoadImageArea_ [0x0020, x, y, w, h] _).2.trace = _
    rw [p3, p2, p1, framedBy_append, framedBy_append]
    simp only [List.append_assoc]
  · have := congrArg List.length hmap
    simpa using this

/-- A 4-word image with a capacity of 4 words: `error` after the twelve transfers
of the address and of `LOAD_IMAGE_AREA`. -/
theorem writeImage_oversize_witness :
    (writeImage (fakeEnv (fun _ => true) (fun _ => []) true) 4 0x00012345 [7, 8, 9, 10]
      1 2 3 4 (IT8951.init 4 0)).1 = Status.error ∧
    transfers (writeImage (fakeEnv (fun _ => true) (fun _ => []) true) 4 0x00012345
        [7, 8, 9, 10] 1 2 3 4 (IT8951.init 4 0)).2.trace
      = [[0x6000, 0x0011], [0x0000, 0x020A], [0x0000, 0x0001],
         [0x6000, 0x0011], [0x0000, 0x0208], [0x0000, 0x2345],
         [0x6000, 0x0021], [0x0000, 0x0020], [0x0000, 1], [0x0000, 2], [0x0000, 3],
         [0x0000, 4]] :=
  ⟨(writeImage_oversize (fakeEnv (fun _ => true) (fun _ => []) true) 4 0x00012345
      [7, 8, 9, 10] 1 2 3 4 (IT8951.init 4 0) rfl (by simp [WellSized, IT8951.init])
      (by decide) (by decide) (fun _ _ _ => rfl)).1,
   by decide⟩

/-! ## No short circuit inside `writeCommand(command, parameters)` -/

/-- C20: for every command, every parameter list of length `n` and every behaviour
of the bus, with the flag clear at entry, `writeCommand(command, parameters)`
performs exactly `1 + n` bus transactions, the command and then every parameter in
order, also when an earlier transfer of the same call has reported failure; it
returns `error` if and only if at least one of those transfers reported failure,
and `ok` otherwise. -/
theorem writeCommandParameters_transfers {ω : Type} (env : Env ω) (C command : Nat)
    (parameters : List Nat) (s : IT8951 ω) (hf : s.busyFlag_ = false)
    (hw : WellSized C s) :
    ∃ ts : List Transaction,
      (writeCommandParameters env command parameters s).2.trace
        = s.trace ++ framedBy ts ∧
      ts.length = 1 + parameters.length ∧
      ts.map Transaction.tx
        = [0x6000, command] :: parameters.map (fun p => [0x0000, p]) ∧
      ((writeCommandParameters env command parameters s).1 = Status.error
        ↔ ∃ t ∈ ts, t.success = false) ∧
      ((¬ ∃ t ∈ ts, t.success = false) →
        (writeCommandParameters env command parameters s).1 = Status.ok) := by
  obtain ⟨ts, k1, k2, _, k4⟩ := writeCommandParameters_run env C command parameters s hf hw
  have hlen : ts.length = 1 + parameters.length := by
    have := congrArg List.length k2
    simp only [List.length_map, List.length_cons] at this
    omega
  refine ⟨ts, k1, hlen, k2, ?_, ?_⟩
  · rw [k4]
    by_cases hall : ts.all (fun t => t.success) = true
    · rw [if_pos hall]
      simp only [List.all_eq_true] at hall
      constructor
      · intro h; exact absurd h (by decide)
      · rintro ⟨t, ht, hs⟩
        rw [hall t ht] at hs
        exact absurd hs (by decide)
    · rw [if_neg hall]
      simp only [List.all_eq_true, not_forall] at hall
      obtain ⟨t, ht, hs⟩ := hall
      exact ⟨fun _ => ⟨t, ht, by simpa using hs⟩, fun _ => rfl⟩
  · intro hnone
    rw [k4]
    have hall : ts.all (fun t => t.success) = true := by
      simp only [List.all_eq_true]
      intro t ht
      by_contra hs
      exact hnone ⟨t, ht, by simpa using hs⟩
    rw [if_pos hall]

/-- The command transfer fails and the two parameter transfers succeed: all three
transfers are made and the status is `error`. -/
theorem writeCommandParameters_transfers_witness :
    (writeCommandParameters (fakeEnv (fun i => decide (i ≠ 0)) (fun _ => []) true) 0x0011
      [0x0004, 0x0001] (IT8951.init 2 0)).1 = Status.error ∧
    (writeCommandParameters (fakeEnv (fun i => decide (i ≠ 0)) (fun _ => []) true) 0x0011
      [0x0004, 0x0001] (IT8951.init 2 0)).2.trace
      = [Event.pinRead true, Event.transfer [0x6000, 0x0011] [0, 0] false,
         Event.pinRead true, Event.transfer [0x0000, 0x0004] [0, 0] true,
         Event.pinRead true, Event.transfer [0x0000, 0x0001] [0, 0] true] ∧
    ∃ ts : List Transaction,
      (writeCommandParameters (fakeEnv (fun i => decide (i ≠ 0)) (fun _ => []) true)
          0x0011 [0x0004, 0x0001] (IT8951.init 2 0)).2.trace
        = (IT8951.init 2 (0 : Nat)).trace ++ framedBy ts ∧
      ts.length = 1 + [0x0004, 0x0001].length ∧
      ts.map Transaction.tx
        = [0x6000, 0x0011] :: [0x0004, 0x0001].map (fun p => [0x0000, p]) ∧
      ((writeCommandParameters (fakeEnv (fun i => decide (i ≠ 0)) (fun _ => []) true)
          0x0011 [0x0004, 0x0001] (IT8951.init 2 0)).1 = Status.error
        ↔ ∃ t ∈ ts, t.success = false) ∧
      ((¬ ∃ t ∈ ts, t.success = false) →
        (writeCommandParameters (fakeEnv (fun i => decide (i ≠ 0)) (fun _ => []) true)
          0x0011 [0x0004, 0x0001] (IT8951.init 2 0)).1 = Status.ok) :=
  ⟨by decide, by decide,
   writeCommandParameters_transfers (fakeEnv (fun i => decide (i ≠ 0)) (fun _ => []) true)
     2 0x0011 [0x0004, 0x0001] (IT8951.init 2 0) rfl (by simp [WellSized, IT8951.init])⟩

/-! ## Capacities too small for the read operations -/

theorem readData_oversize {ω : Type} (env : Env ω) (C : Nat) (buffer : List Nat)
    (s : IT8951 ω) (hf : s.busyFlag_ = false) (hover : C < buffer.length + 2) :
    readData env C buffer s = (Status.error, buffer, { s with busyFlag_ := true }) := by
  simp [readData, hf, hover]

/-- A command with parameters followed by a `readData` that does not fit: whatever
the bus reports, one of the two returns `error`, and the trace is the one the
command left. -/
theorem command_then_oversize_read {ω : Type} (env : Env ω) (C command : Nat)
    (ps buffer : List Nat) (s : IT8951 ω) (hf : s.busyFlag_ = false)
    (hw : WellSized C s) (hover : C < buffer.length + 2) :
    ((writeCommandParameters env command ps s).1 = Status.error ∨
      ((writeCommandParameters env command ps s).1 = Status.ok ∧
        readData env C buffer (writeCommandParameters env command ps s).2
          = (Status.error, buffer,
              { (writeCommandParameters env command ps s).2 with busyFlag_ := true }))) := by
  obtain ⟨f1, _, _, _⟩ := writeCommandParameters_spec env C command ps s hf hw
  obtain ⟨ts, _, _, _, k4⟩ := writeCommandParameters_run env C command ps s hf hw
  by_cases hall : ts.all (fun t => t.success) = true
  · rw [if_pos hall] at k4
    exact Or.inr ⟨k4, readData_oversize env C buffer _ f1 hover⟩
  · rw [if_neg hall] at k4
    exact Or.inl k4

/-- Counterexample to C21 as stated: on a fresh driver with a capacity of 2 words
the first `isDisplayReady` returns `error` and leaves the flag set; the second
call, on the state the first one left, returns `busy`, not `error`, and performs
no transfer at all. The same holds for `readRegister`. -/
theorem small_capacity_second_call_busy :
    (isDisplayReady (blockEnv [5]) 2 (IT8951.init 2 0)).1 = Status.error ∧
    (isDisplayReady (blockEnv [5]) 2 (IT8951.init 2 0)).2.2.busyFlag_ = true ∧
    (isDisplayReady (blockEnv [5]) 2
      (isDisplayReady (blockEnv [5]) 2 (IT8951.init 2 0)).2.2).1 = Status.busy ∧
    (isDisplayReady (blockEnv [5]) 2
      (isDisplayReady (blockEnv [5]) 2 (IT8951.init 2 0)).2.2).1 ≠ Status.error ∧
    (isDisplayReady (blockEnv [5]) 2
      (isDisplayReady (blockEnv [5]) 2 (IT8951.init 2 0)).2.2).2.2.trace
      = (isDisplayReady (blockEnv [5]) 2 (IT8951.init 2 0)).2.2.trace ∧
    (readRegister (blockEnv [5]) 2 0x1224
      { IT8951.init 2 (0 : Nat) with busyFlag_ := true }).1 = Status.busy := by
  decide

/-- C21 (amended): entered with the flag clear, the accepted capacity bound
`C ≥ 2` is not enough for the read operations. For `C = 2`, `readRegister`,
`isDisplayReady` and `getVcom` return `error` for every behaviour of the bus, and
for every `C < 22` `getDeviceInfo` returns `error` for every behaviour of the bus.
In each case the error is returned only after the transactions of the operation's
command and parameter have been performed on the bus (two for `readRegister`,
`isDisplayReady` and `getVcom`, one for `getDeviceInfo`), and no other transfer is
made. -/
theorem small_capacity_reads_fail {ω : Type} (env : Env ω) (C : Nat) (s : IT8951 ω)
    (hf : s.busyFlag_ = false) (hw : WellSized C s) :
    (C = 2 →
      (∀ address,
        (readRegister env C address s).1 = Status.error ∧
        ∃ ts : List Transaction,
          (readRegister env C address s).2.2.trace = s.trace ++ framedBy ts ∧
          ts.map Transaction.tx = [[0x6000, 0x0010], [0x0000, address]]) ∧
      ((isDisplayReady env C s).1 = Status.error ∧
        ∃ ts : List Transaction,
          (isDisplayReady env C s).2.2.trace = s.trace ++ framedBy ts ∧
          ts.map Transaction.tx = [[0x6000, 0x0010], [0x0000, 0x1224]]) ∧
      ((getVcom env C s).1 = Status.error ∧
        ∃ ts : List Transaction,
          (getVcom env C s).2.2.trace = s.trace ++ framedBy ts ∧
          ts.map Transaction.tx = [[0x6000, 0x0039], [0x0000, 0x0000]])) ∧
    (C < 22 →
      ∀ beyond,
        (getDeviceInfo env C beyond s).1 = Status.error ∧
        ∃ t : Transaction,
          (getDeviceInfo env C beyond s).2.2.trace = s.trace ++ framedBy [t] ∧
          t.tx = [0x6000, 0x0302]) := by
  have hreg : C = 2 → ∀ address,
      (readRegister env C address s).1 = Status.error ∧
      ∃ ts : List Transaction,
        (readRegister env C address s).2.2.trace = s.trace ++ framedBy ts ∧
        ts.map Transaction.tx = [[0x6000, 0x0010], [0x0000, address]] := by
    intro hC address
    obtain ⟨ts, k1, k2, _, _⟩ := writeCommandParameters_run env C cReadRegister_
      [address] s hf hw
    have hover : C < ([0] : List Nat).length + 2 := by rw [hC]; decide
    rcases command_then_oversize_read env C cReadRegister_ [address] [0] s hf hw hover
      with h1 | ⟨h1, h2⟩
    · have hrun : readRegister env C address s
          = ((writeCommandParameters env cReadRegister_ [address] s).1, 0,
              (writeCommandParameters env cReadRegister_ [address] s).2) := by
        simp only [readRegister]
        rw [if_pos (by rw [h1]; exact fun hne => Status.noConfusion hne)]
      rw [hrun]
      exact ⟨h1, ts, k1, k2⟩
    · have hrun : readRegister env C address s
          = (Status.error, 0,
              { (writeCommandParameters env cReadRegister_ [address] s).2 with
                busyFlag_ := true }) := by
        simp only [readRegister]
        rw [if_neg (not_not.mpr h1), h2]
        rfl
      rw [hrun]
      exact ⟨rfl, ts, k1, k2⟩
  refine ⟨fun hC => ⟨hreg hC, hreg hC 0x1224, ?_⟩, ?_⟩
  · obtain ⟨ts, k1, k2, _, _⟩ := writeCommandParameters_run env C cSetVcom_ [0x0000] s hf hw
    have hover : C < ([0] : List Nat).length + 2 := by rw [hC]; decide
    rcases command_then_oversize_read env C cSetVcom_ [0x0000] [0] s hf hw hover
      with h1 | ⟨h1, h2⟩
    · have hrun : getVcom env C s
          = ((writeCommandParameters env cSetVcom_ [0x0000] s).1, F32.ofNat 0,
              (writeCommandParameters env cSetVcom_ [0x0000] s).2) := by
        simp only [getVcom]
        rw [if_pos (by rw [h1]; exact fun hne => Status.noConfusion hne)]
      rw [hrun]
      exact ⟨h1, ts, k1, k2⟩
    · have hrun : getVcom env C s
          = (Status.error, F32.ofNat 0,
              { (writeCommandParameters env cSetVcom_ [0x0000] s).2 with
                busyFlag_ := true }) := by
        simp only [getVcom]
        rw [if_neg (not_not.mpr h1), h2]
        rfl
      rw [hrun]
      exact ⟨rfl, ts, k1, k2⟩
  · intro hC beyond
    obtain ⟨f1, _, _, _⟩ := writeCommand_spec env C cGetDeviceInfo_ s hf hw
    obtain ⟨t, k1, k2, _, k4⟩ := writeCommand_run env C cGetDeviceInfo_ s hf hw
    have hover : C < (List.replicate 20 0 : List Nat).length + 2 := by
      rw [List.length_replicate]; omega
    cases hs : t.success
    · rw [hs] at k4
      have h1 : (writeCommand env cGetDeviceInfo_ s).1 = Status.error := k4
      have hrun : getDeviceInfo env C beyond s
          = ((writeCommand env cGetDeviceInfo_ s).1, DeviceInfo.empty,
              (writeCommand env cGetDeviceInfo_ s).2) := by
        simp only [getDeviceInfo]
        rw [if_pos (by rw [h1]; exact fun hne => Status.noConfusion hne)]
      rw [hrun]
      exact ⟨h1, t, k1, k2⟩
    · rw [hs] at k4
      have h1 : (writeCommand env cGetDeviceInfo_ s).1 = Status.ok := k4
      have h2 := readData_oversize env C (List.replicate 20 0) _ f1 hover
      have hrun : getDeviceInfo env C beyond s
          = (Status.error, DeviceInfo.empty,
              { (writeCommand env cGetDeviceInfo_ s).2 with busyFlag_ := true }) := by
        simp only [getDeviceInfo]
        rw [if_neg (not_not.mpr h1), h2]
        rfl
      rw [hrun]
      exact ⟨rfl, t, k1, k2⟩

/-- On a fresh driver with a capacity of 2 words and a bus that succeeds,
`isDisplayReady` returns `error` after the two transfers of the command and the
address; with a capacity of 21 words `getDeviceInfo` returns `error` after the
transfer of its command. -/
theorem small_capacity_reads_fail_witness :
    (isDisplayReady (blockEnv [5]) 2 (IT8951.init 2 0)).1 = Status.error ∧
    transfers (isDisplayReady (blockEnv [5]) 2 (IT8951.init 2 0)).2.2.trace
      = [[0x6000, 0x0010], [0x0000, 0x1224]] ∧
    (getDeviceInfo (blockEnv infoBlock) 21 [] (IT8951.init 21 0)).1 = Status.error ∧
    transfers (getDeviceInfo (blockEnv infoBlock) 21 [] (IT8951.init 21 0)).2.2.trace
      = [[0x6000, 0x0302]] := by
  have h2 := (small_capacity_reads_fail (blockEnv [5]) 2 (IT8951.init 2 0) rfl
    (by simp [WellSized, IT8951.init])).1 rfl
  have h21 := (small_capacity_reads_fail (blockEnv infoBlock) 21 (IT8951.init 21 0) rfl
    (by simp [WellSized, IT8951.init])).2 (by decide) []
  exact ⟨h2.2.1.1, by decide, h21.1, by decide⟩

end mati
